import Mathlib

/-!
Verification of the Samsung WAM speaker discovery-and-control core
(`wam_discovery.py`): protocol client, speaker entity, SSDP discovery,
persisted-list loading and the registry/controller.

The embedding is shallow: network I/O is an oracle (`NetState.oracle`)
providing the transport-level outcome of each successive HTTP call, and
each Python method becomes a pure function from the current entity state
and the oracle to the new state, the network trace and the returned value.
Parsed response bodies are modelled by `JVal` (strings, integers, objects);
Python runtime errors that the code can raise or catch are modelled by
`PyErr`.  Cached speaker fields carry the types annotated in the source
(`volume: int`, the rest strings); a device response whose extracted value
is not of the annotated type is mapped to the distinguished `PyErr.illTyped`
marker, and no theorem below relies on that corner.
-/

namespace Wam

/-- Parsed response data, as produced by `response.json()` in
`SamsungWamSpeaker._send_command` (wam_discovery.py lines 34-57):
a JSON string, integer, or object (list of key/value pairs with
distinct keys, in insertion order). -/
inductive JVal where
  | jstr : String → JVal
  | jint : Int → JVal
  | jobj : List (String × JVal) → JVal

/-- Python runtime-error conditions relevant to the modelled code paths.
`illTyped` is not a Python error: it marks a device value whose runtime
type differs from the annotation of the cached field it would be stored
into, a corner the typed embedding cannot represent and no claim uses. -/
inductive PyErr where
  | typeError
  | attributeError
  | valueError
  | keyError
  | illTyped
deriving DecidableEq

/-- Substring test on character lists: is the first list a prefix of the second. -/
def isPrefB : List Char → List Char → Bool
  | [], _ => true
  | _ :: _, [] => false
  | x :: xs, y :: ys => x == y && isPrefB xs ys

/-- Substring test on character lists: does the first list occur inside the second. -/
def isInfB (n : List Char) : List Char → Bool
  | [] => isPrefB n []
  | h :: t => isPrefB n (h :: t) || isInfB n t

/-- Python `needle in hay` on strings (substring containment). -/
def substrB (needle hay : String) : Bool := isInfB needle.data hay.data

/-- Python truthiness of a parsed JSON value: empty string, zero and
empty object are falsy, everything else truthy. -/
def JVal.truthy : JVal → Bool
  | .jstr s => !(s == "")
  | .jint n => !(n == 0)
  | .jobj fs => !fs.isEmpty

/-- Python truthiness of an `Optional` result (`None` is falsy). -/
def respTruthy : Option JVal → Bool
  | none => false
  | some j => j.truthy

/-- Python `k in v`: key membership for a dict, substring test for a string,
a `TypeError` for an integer. -/
def pyContains : JVal → String → Except PyErr Bool
  | .jobj fs, k => .ok (fs.any (fun p => p.1 == k))
  | .jstr s, k => .ok (substrB k s)
  | .jint _, _ => .error .typeError

/-- Python `v[k]` subscription: dict lookup (`KeyError` when absent),
a `TypeError` on any non-dict value. -/
def pyIndex : JVal → String → Except PyErr JVal
  | .jobj fs, k =>
    match fs.find? (fun p => p.1 == k) with
    | some p => .ok p.2
    | none => .error .keyError
  | _, _ => .error .typeError

/-- Python `v.get(k, d)`: dict lookup with default, an `AttributeError`
on any non-dict value. -/
def pyGet : JVal → String → JVal → Except PyErr JVal
  | .jobj fs, k, d => .ok (((fs.find? (fun p => p.1 == k)).map (fun p => p.2)).getD d)
  | _, _, _ => .error .attributeError

/-- Decimal digit character for one digit value (values above nine never
arise at call sites, which pass `n % 10` or `n < 10`). -/
def digitChar10 : Nat → Char
  | 0 => '0' | 1 => '1' | 2 => '2' | 3 => '3' | 4 => '4'
  | 5 => '5' | 6 => '6' | 7 => '7' | 8 => '8' | _ => '9'

/-- Little-endian decimal digits of a natural number, with explicit fuel
so that the definition is structural and kernel-reducible. -/
def natDigitsRevAux : Nat → Nat → List Char
  | 0, _ => []
  | fuel+1, n => if n < 10 then [digitChar10 n] else digitChar10 (n % 10) :: natDigitsRevAux fuel (n / 10)

/-- Python `str` of a non-negative integer: its decimal digits. -/
def pyStrNat (n : Nat) : String := String.mk (natDigitsRevAux (n+1) n).reverse

/-- Python `str` of an integer: decimal digits with a leading minus sign
when negative. -/
def pyStrInt : Int → String
  | .ofNat n => pyStrNat n
  | .negSucc m => "-" ++ pyStrNat (m+1)

/-- Numeric value of a decimal digit character. -/
def digitVal (c : Char) : Nat := c.toNat - 48

/-- Digit-run parser for Python `int(str)`: a digit followed by digits
optionally separated by single underscores, accumulating the decimal value. -/
def goDigits (acc : Nat) : List Char → Option Nat
  | [] => some acc
  | c :: cs =>
    if c == '_' then
      match cs with
      | [] => none
      | c2 :: cs2 => if c2.isDigit then goDigits (acc * 10 + digitVal c2) cs2 else none
    else if c.isDigit then goDigits (acc * 10 + digitVal c) cs
    else none

/-- Parse a non-empty digit run (underscore separators allowed after the
first digit, as Python accepts). -/
def parseUDigits : List Char → Option Nat
  | [] => none
  | c :: cs => if c.isDigit then goDigits (digitVal c) cs else none

/-- Strip leading and trailing whitespace from a character list. -/
def trimWs (l : List Char) : List Char :=
  ((l.dropWhile Char.isWhitespace).reverse.dropWhile Char.isWhitespace).reverse

/-- Python `int(s)` on a string: optional surrounding whitespace, optional
sign, then a decimal digit run; `none` models the `ValueError` outcome. -/
def pyIntOfString (s : String) : Option Int :=
  match trimWs s.data with
  | [] => none
  | c :: rest =>
    if c == '+' then (parseUDigits rest).map (fun n => (n : Int))
    else if c == '-' then (parseUDigits rest).map (fun n => -(n : Int))
    else (parseUDigits (c :: rest)).map (fun n => (n : Int))

/-- Python `int(v)` on a parsed JSON value: integers pass through, strings
are parsed (`ValueError` on failure), objects raise `TypeError`. -/
def pyIntJ : JVal → Except PyErr Int
  | .jstr s =>
    match pyIntOfString s with
    | some n => .ok n
    | none => .error .valueError
  | .jint n => .ok n
  | .jobj _ => .error .typeError

/-- Transport-level outcome of one HTTP GET issued by
`SamsungWamSpeaker._send_command`: either a response with a status code,
body text and the result of attempting to parse the body as JSON, or a
request failure (timeout, connection error) raised inside `requests`. -/
inductive HttpOutcome where
  | httpResponse (status : Nat) (body : String) (parsed : Option JVal)
  | requestError

/-- Embeds `SamsungWamSpeaker._send_command` (wam_discovery.py lines 34-57):
on HTTP 200 return the parsed body, falling back to a dict holding the raw
body text when JSON parsing fails; on any other status or any transport
failure return `None` (both handlers swallow the condition and print). -/
def send_command : HttpOutcome → Option JVal
  | .httpResponse status body parsed =>
    if status == 200 then
      match parsed with
      | some j => some j
      | none => some (.jobj [("raw_response", .jstr body)])
    else none
  | .requestError => none

/-- Network oracle plus the observable call history: `oracle i` is the
transport outcome of the `i`-th HTTP call of the run, `calls` is the index
of the next call, and `trace` records each issued call as a pair of the
target speaker address and the command fragment sent. -/
structure NetState where
  oracle : Nat → HttpOutcome
  calls : Nat := 0
  trace : List (String × String) := []

/-- Issue one protocol command: consume the next oracle outcome, append
the (address, command) pair to the trace, and return `_send_command`'s
result. -/
def callCmd (ns : NetState) (ip cmd : String) : Option JVal × NetState :=
  (send_command (ns.oracle ns.calls),
   { ns with calls := ns.calls + 1, trace := ns.trace ++ [(ip, cmd)] })

/-- Cached state of `SamsungWamSpeaker` (wam_discovery.py lines 21-32),
with the constructor's default field values.  The field `repeat_mode`
embeds the source attribute `repeat`, renamed only because `repeat` is a
reserved word here. -/
structure Speaker where
  ip_address : String
  name : String := ""
  led : String := "off"
  mute : String := "off"
  volume : Int := 10
  group_name : String := ""
  repeat_mode : String := "off"
  mac : String := ""
  port : Nat := 55001
deriving DecidableEq

/-- Guard expression `resp and 'UIC' in resp and 'response' in resp['UIC']`
used by every state-pulling method; short-circuit evaluation with the
errors Python subscription and membership can raise. -/
def guardUIC : Option JVal → Except PyErr Bool
  | none => .ok false
  | some r =>
    if r.truthy then
      match pyContains r "UIC" with
      | .error e => .error e
      | .ok false => .ok false
      | .ok true =>
        match pyIndex r "UIC" with
        | .error e => .error e
        | .ok u => pyContains u "response"
    else .ok false

/-- Subscription chain `resp['UIC']['response']`. -/
def respNode (r : JVal) : Except PyErr JVal :=
  match pyIndex r "UIC" with
  | .error e => .error e
  | .ok u => pyIndex u "response"

/-- Value of a CDATA-wrapped field pulled by `refresh`:
`resp['UIC']['response'].get(key, {}).get('#cdata-section', cur)` under the
`guardUIC` condition, keeping `cur` when the guard is false.  A non-string
final value cannot be stored in the typed field and yields `illTyped`. -/
def cdataField (key : String) (cur : String) (resp : Option JVal) : Except PyErr String :=
  match guardUIC resp with
  | .error e => .error e
  | .ok false => .ok cur
  | .ok true =>
    match resp with
    | none => .ok cur
    | some r =>
      match respNode r with
      | .error e => .error e
      | .ok node =>
        match pyGet node key (.jobj []) with
        | .error e => .error e
        | .ok v1 =>
          match pyGet v1 "#cdata-section" (.jstr cur) with
          | .error e => .error e
          | .ok (.jstr v) => .ok v
          | .ok _ => .error .illTyped

/-- Value of a plain field pulled by `refresh`:
`resp['UIC']['response'].get(key, cur)` under the `guardUIC` condition. -/
def plainField (key : String) (cur : String) (resp : Option JVal) : Except PyErr String :=
  match guardUIC resp with
  | .error e => .error e
  | .ok false => .ok cur
  | .ok true =>
    match resp with
    | none => .ok cur
    | some r =>
      match respNode r with
      | .error e => .error e
      | .ok node =>
        match pyGet node key (.jstr cur) with
        | .error e => .error e
        | .ok (.jstr v) => .ok v
        | .ok _ => .error .illTyped

/-- Value of the volume field pulled by `refresh` (wam_discovery.py lines
82-90): `resp['UIC']['response'].get('volume', str(self.volume))` then
`int(...)` guarded by `except ValueError`, which keeps the current value. -/
def volumeField (cur : Int) (resp : Option JVal) : Except PyErr Int :=
  match guardUIC resp with
  | .error e => .error e
  | .ok false => .ok cur
  | .ok true =>
    match resp with
    | none => .ok cur
    | some r =>
      match respNode r with
      | .error e => .error e
      | .ok node =>
        match pyGet node "volume" (.jstr (pyStrInt cur)) with
        | .error e => .error e
        | .ok v =>
          match pyIntJ v with
          | .ok n => .ok n
          | .error .valueError => .ok cur
          | .error e => .error e

/-- Command fragment `<name>GetSpkName</name>`. -/
def cmdGetSpkName : String := "<name>GetSpkName</name>"

/-- Command fragment `<name>GetLed</name>`. -/
def cmdGetLed : String := "<name>GetLed</name>"

/-- Command fragment `<name>GetMute</name>`. -/
def cmdGetMute : String := "<name>GetMute</name>"

/-- Command fragment `<name>GetVolume</name>`. -/
def cmdGetVolume : String := "<name>GetVolume</name>"

/-- Command fragment `<name>GetGroupName</name>`. -/
def cmdGetGroupName : String := "<name>GetGroupName</name>"

/-- Command fragment `<name>GetRepeatMode</name>`. -/
def cmdGetRepeatMode : String := "<name>GetRepeatMode</name>"

/-- Command fragment built by `set_volume` for a (already clamped) level. -/
def cmdSetVolume (lvl : Int) : String :=
  "<name>SetVolume</name><p type=\"dec\" name=\"volume\" val=\"" ++ pyStrInt lvl ++ "\"/>"

/-- Command fragment built by `set_mute`. -/
def cmdSetMute (choice : String) : String :=
  "<name>SetMute</name><p type=\"str\" name=\"mute\" val=\"" ++ choice ++ "\"/>"

/-- Command fragment built by `set_led`. -/
def cmdSetLed (choice : String) : String :=
  "<name>SetLed</name><p type=\"str\" name=\"option\" val=\"" ++ choice ++ "\"/>"

/-- Command fragment built by `set_name`. -/
def cmdSetName (name : String) : String :=
  "<name>SetSpkName</name><p type=\"cdata\" name=\"spkname\" val=\"empty\"><![CDATA[" ++ name ++ "]]></p>"

/-- Command fragment built by `set_repeat_mode`. -/
def cmdSetRepeatMode (mode : String) : String :=
  "<name>SetRepeatMode</name><p type=\"str\" name=\"repeatmode\" val=\"" ++ mode ++ "\"/>"

/-- Command fragment built by `set_shuffle`. -/
def cmdSetShuffle (mode : String) : String :=
  "<name>SetShuffleMode</name><p type=\"str\" name=\"shufflemode\" val=\"" ++ mode ++ "\"/>"

/-- Command fragment built by the playback-control methods
(`play`, `pause`, `resume`, `next_track`, `previous_track`). -/
def cmdPlaybackControl (v : String) : String :=
  "<name>SetPlaybackControl</name><p type=\"str\" name=\"playbackcontrol\" val=\"" ++ v ++ "\"/>"

/-- Command fragment built by `play_url`. -/
def cmdPlayUrl (url : String) (resumeFlag : Int) : String :=
  "<name>SetUrlPlayback</name><p type=\"cdata\" name=\"url\" val=\"empty\"><![CDATA[" ++ url ++
  "]]></p><p type=\"dec\" name=\"buffersize\" val=\"0\"/><p type=\"dec\" name=\"seektime\" val=\"0\"/><p type=\"dec\" name=\"resume\" val=\"" ++
  pyStrInt resumeFlag ++ "\"/>"

/-- Command fragment `<name>SetUngroup</name>`. -/
def cmdUngroup : String := "<name>SetUngroup</name>"

/-- Zero hardware-address sentinel used when a speaker's MAC is unknown. -/
def zeroMac : String := "00:00:00:00:00:00"

/-- Models `speaker.mac if speaker.mac else '00:00:00:00:00:00'` (empty string is falsy). -/
def macOrZero (mac : String) : String := if mac == "" then zeroMac else mac

/-- Per-sub-speaker fragment appended by `group_with_speakers`
(wam_discovery.py line 345). -/
def subSpkFragment (ip mac : String) : String :=
  "<p type=\"str\" name=\"subspkip\" val=\"" ++ ip ++ "\"/><p type=\"str\" name=\"subspkmacaddr\" val=\"" ++
  macOrZero mac ++ "\"/>"

/-- Remove every occurrence of one character, modelling
`str.replace(old, '')` with a one-character `old`. -/
def stripChar (c : Char) (s : String) : String :=
  String.mk (s.data.filter (fun a => !(a == c)))

/-- Main part of the `SetMultispkGroup` command as first built by
`group_with_speakers` (wam_discovery.py lines 334-341), newlines included. -/
def groupCmdRaw (gname : String) (spknum : Nat) (mainMac mainName : String) : String :=
  "<name>SetMultispkGroup</name>\n<p type=\"cdata\" name=\"name\" val=\"empty\"><![CDATA[" ++ gname ++
  "]]></p>\n<p type=\"dec\" name=\"index\" val=\"1\"/>\n<p type=\"str\" name=\"type\" val=\"main\"/>\n<p type=\"dec\" name=\"spknum\" val=\"" ++
  pyStrNat spknum ++
  "\"/>\n<p type=\"str\" name=\"audiosourcemacaddr\" val=\"" ++ macOrZero mainMac ++
  "\"/>\n<p type=\"cdata\" name=\"audiosourcename\" val=\"empty\"><![CDATA[" ++ mainName ++
  "]]></p>\n<p type=\"str\" name=\"audiosourcetype\" val=\"speaker\"/>"

/-- Full `SetMultispkGroup` command sent by `group_with_speakers`: the main
part, one fragment per sub-speaker (address, MAC) pair, newlines and
carriage returns removed (wam_discovery.py lines 343-348). -/
def groupCmd (gname : String) (mainName mainMac : String) (subs : List (String × String)) : String :=
  stripChar '\r' (stripChar '\n'
    (groupCmdRaw gname (1 + subs.length) mainMac mainName ++
     String.join (subs.map (fun p => subSpkFragment p.1 p.2))))

/-- Embeds `SamsungWamSpeaker.set_volume` (wam_discovery.py lines 106-115): clamp
the level to [0, 30], send `SetVolume`, and on a truthy result cache the
clamped value. -/
def set_volume (s : Speaker) (vol_level : Int) (ns : NetState) :
    Speaker × Option JVal × NetState :=
  let lvl := max 0 (min 30 vol_level)
  let (response, ns1) := callCmd ns s.ip_address (cmdSetVolume lvl)
  (if respTruthy response then { s with volume := lvl } else s, response, ns1)

/-- Embeds `SamsungWamSpeaker.get_volume` (wam_discovery.py lines 117-131): pull
`GetVolume`; when the guard holds, parse the reported volume, cache and
return it, keeping the cache and returning it on a `ValueError`; when the
guard fails, return the cached value. -/
def get_volume (s : Speaker) (ns : NetState) : Speaker × Except PyErr Int × NetState :=
  let (resp, ns1) := callCmd ns s.ip_address cmdGetVolume
  match guardUIC resp with
  | .error e => (s, .error e, ns1)
  | .ok false => (s, .ok s.volume, ns1)
  | .ok true =>
    match resp with
    | none => (s, .ok s.volume, ns1)
    | some r =>
      match respNode r with
      | .error e => (s, .error e, ns1)
      | .ok node =>
        match pyGet node "volume" (.jstr (pyStrInt s.volume)) with
        | .error e => (s, .error e, ns1)
        | .ok v =>
          match pyIntJ v with
          | .ok n => ({ s with volume := n }, .ok n, ns1)
          | .error .valueError => (s, .ok s.volume, ns1)
          | .error e => (s, .error e, ns1)

/-- Embeds `SamsungWamSpeaker.set_mute` (wam_discovery.py lines 133-143): raise
`ValueError` unless the choice is `on` or `off` — before any network call —
otherwise send `SetMute` and on a truthy result cache the choice. -/
def set_mute (s : Speaker) (choice : String) (ns : NetState) :
    Speaker × Except PyErr (Option JVal) × NetState :=
  if !(choice == "on" || choice == "off") then (s, .error .valueError, ns)
  else
    let (response, ns1) := callCmd ns s.ip_address (cmdSetMute choice)
    (if respTruthy response then { s with mute := choice } else s, .ok response, ns1)

/-- Embeds `SamsungWamSpeaker.get_mute` (wam_discovery.py lines 145-155): pull
`GetMute`; when the guard holds, cache and return the reported value
(defaulting to the current cache); otherwise return the cache. -/
def get_mute (s : Speaker) (ns : NetState) : Speaker × Except PyErr String × NetState :=
  let (resp, ns1) := callCmd ns s.ip_address cmdGetMute
  match plainField "mute" s.mute resp with
  | .error e => (s, .error e, ns1)
  | .ok v => ({ s with mute := v }, .ok v, ns1)

/-- Embeds `SamsungWamSpeaker.set_led` (wam_discovery.py lines 213-223):
validation and optimistic-update pattern of `set_mute` over the LED field. -/
def set_led (s : Speaker) (choice : String) (ns : NetState) :
    Speaker × Except PyErr (Option JVal) × NetState :=
  if !(choice == "on" || choice == "off") then (s, .error .valueError, ns)
  else
    let (response, ns1) := callCmd ns s.ip_address (cmdSetLed choice)
    (if respTruthy response then { s with led := choice } else s, .ok response, ns1)

/-- Embeds `SamsungWamSpeaker.set_name` (wam_discovery.py lines 225-233). -/
def set_name (s : Speaker) (name : String) (ns : NetState) :
    Speaker × Option JVal × NetState :=
  let (response, ns1) := callCmd ns s.ip_address (cmdSetName name)
  (if respTruthy response then { s with name := name } else s, response, ns1)

/-- Embeds `SamsungWamSpeaker.set_repeat_mode` (wam_discovery.py lines 192-202):
raise `ValueError` unless the mode is `off`, `all` or `one`, otherwise send
and optimistically cache. -/
def set_repeat_mode (s : Speaker) (mode : String) (ns : NetState) :
    Speaker × Except PyErr (Option JVal) × NetState :=
  if !(mode == "off" || mode == "all" || mode == "one") then (s, .error .valueError, ns)
  else
    let (response, ns1) := callCmd ns s.ip_address (cmdSetRepeatMode mode)
    (if respTruthy response then { s with repeat_mode := mode } else s, .ok response, ns1)

/-- Embeds `SamsungWamSpeaker.set_shuffle` (wam_discovery.py lines 204-211):
fire-and-forget, no cached state. -/
def set_shuffle (s : Speaker) (enabled : Bool) (ns : NetState) :
    Speaker × Option JVal × NetState :=
  let mode := if enabled then "on" else "off"
  let (response, ns1) := callCmd ns s.ip_address (cmdSetShuffle mode)
  (s, response, ns1)

/-- Shared shape of the fire-and-forget methods (`play`, `pause`, `resume`,
`next_track`, `previous_track`, `play_url`, the EQ and info queries,
`set_search_time`): one command, no cached-state change. -/
def fireAndForget (s : Speaker) (cmd : String) (ns : NetState) :
    Speaker × Option JVal × NetState :=
  let (response, ns1) := callCmd ns s.ip_address cmd
  (s, response, ns1)

/-- Embeds `SamsungWamSpeaker.ungroup` (wam_discovery.py lines 355-363): send
`SetUngroup` and on a truthy result clear the cached group name. -/
def ungroup (s : Speaker) (ns : NetState) : Speaker × Option JVal × NetState :=
  let (response, ns1) := callCmd ns s.ip_address cmdUngroup
  (if respTruthy response then { s with group_name := "" } else s, response, ns1)

/-- Ungroup each speaker of a list in order, threading the network state,
modelling the loop of `group_with_speakers` over the sub-speakers. -/
def ungroupList : List Speaker → NetState → List Speaker × NetState
  | [], ns => ([], ns)
  | s :: rest, ns =>
    let (s1, _, ns1) := ungroup s ns
    let (rest1, ns2) := ungroupList rest ns1
    (s1 :: rest1, ns2)

/-- Embeds `SamsungWamSpeaker.group_with_speakers` (wam_discovery.py lines
325-353): first ungroup self and every other participant in order, then
send one `SetMultispkGroup` command from self naming itself as main and
each sub-speaker's address and MAC; on a truthy result cache the group
name on self only. -/
def group_with_speakers (s : Speaker) (gname : String) (others : List Speaker)
    (ns : NetState) : Speaker × List Speaker × Option JVal × NetState :=
  let (s1, _, ns1) := ungroup s ns
  let (others1, ns2) := ungroupList others ns1
  let cmd := groupCmd gname s1.name s1.mac (others1.map (fun o => (o.ip_address, o.mac)))
  let (response, ns3) := callCmd ns2 s1.ip_address cmd
  (if respTruthy response then { s1 with group_name := gname } else s1, others1, response, ns3)

/-- Embeds `SamsungWamSpeaker.refresh` (wam_discovery.py lines 59-104): pull name,
LED, mute, volume, group name and repeat mode in order, each field keeping
its cached value when its fetch fails benignly; the surrounding
`except Exception` turns any raised error into an early return that keeps
the state mutated so far and abandons the remaining fields. -/
def refresh (s : Speaker) (ns : NetState) : Speaker × NetState :=
  let (r1, ns1) := callCmd ns s.ip_address cmdGetSpkName
  match cdataField "spkname" s.name r1 with
  | .error _ => (s, ns1)
  | .ok n1 =>
    let s1 : Speaker := { s with name := n1 }
    let (r2, ns2) := callCmd ns1 s1.ip_address cmdGetLed
    match plainField "led" s1.led r2 with
    | .error _ => (s1, ns2)
    | .ok v2 =>
      let s2 : Speaker := { s1 with led := v2 }
      let (r3, ns3) := callCmd ns2 s2.ip_address cmdGetMute
      match plainField "mute" s2.mute r3 with
      | .error _ => (s2, ns3)
      | .ok v3 =>
        let s3 : Speaker := { s2 with mute := v3 }
        let (r4, ns4) := callCmd ns3 s3.ip_address cmdGetVolume
        match volumeField s3.volume r4 with
        | .error _ => (s3, ns4)
        | .ok v4 =>
          let s4 : Speaker := { s3 with volume := v4 }
          let (r5, ns5) := callCmd ns4 s4.ip_address cmdGetGroupName
          match cdataField "groupname" s4.group_name r5 with
          | .error _ => (s4, ns5)
          | .ok v5 =>
            let s5 : Speaker := { s4 with group_name := v5 }
            let (r6, ns6) := callCmd ns5 s5.ip_address cmdGetRepeatMode
            match plainField "repeat" s5.repeat_mode r6 with
            | .error _ => (s5, ns6)
            | .ok v6 => ({ s5 with repeat_mode := v6 }, ns6)

/-- SSDP search-target string matched against each received datagram. -/
def ssdpTarget : String := "urn:samsung.com:device:RemoteControlReceiver:1"

/-- Fallback display name synthesized during discovery. -/
def fallbackName (ip : String) : String := "Samsung Speaker at " ++ ip

/-- Name resolution for a freshly discovered candidate (wam_discovery.py
lines 577-592): extract the CDATA speaker name with empty-string default;
an empty (falsy) name, a failed guard, or any raised error (the bare
`except`) all fall back to the synthesized name. -/
def resolveName (ip : String) (resp : Option JVal) : String :=
  match cdataField "spkname" "" resp with
  | .ok v => if v == "" then fallbackName ip else v
  | .error _ => fallbackName ip

/-- Receive loop of `SamsungWamDiscovery.discover_speakers`
(wam_discovery.py lines 564-605): for each datagram whose text contains
the search target, take the sender address, build a default speaker,
resolve its name via one `GetSpkName` call, and append it unless a speaker
with the same address was already collected. -/
def discoverLoop : List (String × String) → List Speaker → NetState →
    List Speaker × NetState
  | [], acc, ns => (acc, ns)
  | (payload, addr) :: rest, acc, ns =>
    if substrB ssdpTarget payload then
      let (resp, ns1) := callCmd ns addr cmdGetSpkName
      let sp : Speaker := { ip_address := addr, name := resolveName addr resp }
      let acc1 := if acc.any (fun e => e.ip_address == sp.ip_address) then acc else acc ++ [sp]
      discoverLoop rest acc1 ns1
    else discoverLoop rest acc ns

/-- Embeds `SamsungWamDiscovery.discover_speakers` over the sequence of datagrams
`(payload, sender address)` received before the socket timeout. -/
def discover_speakers (datagrams : List (String × String)) (ns : NetState) :
    List Speaker × NetState :=
  discoverLoop datagrams [] ns

/-- One persisted record as consumed by `load_speakers_from_config`
(wam_discovery.py lines 615-646): each field optional, values carrying the
types the source annotates on the constructor parameters. -/
structure ConfigRecord where
  ipAddressField : Option String := none
  nameField : Option String := none
  ledField : Option String := none
  muteField : Option String := none
  volumeField : Option Int := none
  groupNameField : Option String := none
  repeatField : Option String := none
  macField : Option String := none

/-- Speaker built from one persisted record: every field is taken verbatim
via `.get` with the constructor defaults as fallbacks; no validation or
clamping is applied. -/
def speakerOfRecord (r : ConfigRecord) : Speaker :=
  { ip_address := r.ipAddressField.getD ""
    name := r.nameField.getD ""
    led := r.ledField.getD "off"
    mute := r.muteField.getD "off"
    volume := r.volumeField.getD 10
    group_name := r.groupNameField.getD ""
    repeat_mode := r.repeatField.getD "off"
    mac := r.macField.getD "" }

/-- Embeds `load_speakers_from_config` on successfully parsed record data:
one speaker per record, in order. -/
def load_speakers_from_config (records : List ConfigRecord) : List Speaker :=
  records.map speakerOfRecord

/-- Membership of a string in a list, modelling Python set membership for
the `seen_ips` set. -/
def memB (x : String) : List String → Bool
  | [] => false
  | a :: rest => x == a || memB x rest

/-- Deduplication loop of `WamController.discover` (wam_discovery.py lines
697-704): keep each speaker whose address was not seen yet, first
occurrence winning. -/
def dedupByIp : List Speaker → List String → List Speaker
  | [], _ => []
  | s :: rest, seen =>
    if memB s.ip_address seen then dedupByIp rest seen
    else s :: dedupByIp rest (s.ip_address :: seen)

/-- Merge step of `WamController.discover` (wam_discovery.py lines
685-707): concatenate discovered speakers with the persisted list and
deduplicate by address, producing the new working set. -/
def discover_merge (discovered config : List Speaker) : List Speaker :=
  dedupByIp (discovered ++ config) []

/-- ASCII lower-casing of one character (Python `str.lower` restricted to
the ASCII range the modelled data uses). -/
def charLower (c : Char) : Char :=
  if c.toNat ≥ 65 && c.toNat ≤ 90 then Char.ofNat (c.toNat + 32) else c

/-- ASCII lower-casing of a string. -/
def lowerB (s : String) : String := String.mk (s.data.map charLower)

/-- Embeds `WamController.get_speaker_by_name` (wam_discovery.py lines 709-716):
first working-set speaker whose name matches case-insensitively. -/
def get_speaker_by_name (speakers : List Speaker) (name : String) : Option Speaker :=
  speakers.find? (fun sp => lowerB sp.name == lowerB name)

/-- Embeds `WamController.create_group` (wam_discovery.py lines 744-779): require
at least two given names; resolve each name against the working set, the
first resolvable becoming main and the remaining resolvable ones subs
(unresolvable names are only reported); require a main and at least one
sub, else return without any network call; otherwise run the main
speaker's `group_with_speakers`.  Returns the updated main and subs when
the group command was issued. -/
def create_group (speakers : List Speaker) (gname : String) (names : List String)
    (ns : NetState) : Option (Speaker × List Speaker) × NetState :=
  if names.length < 2 then (none, ns)
  else
    match names.filterMap (get_speaker_by_name speakers) with
    | [] => (none, ns)
    | mainSpk :: subs =>
      if subs.isEmpty then (none, ns)
      else
        let (m1, subs1, _, ns1) := group_with_speakers mainSpk gname subs ns
        (some (m1, subs1), ns1)

/-- The full operation surface of `SamsungWamSpeaker`, used to state
which operations can change the cached group-membership state. -/
inductive EntityOp where
  | refreshOp
  | setVolumeOp (v : Int)
  | getVolumeOp
  | setMuteOp (c : String)
  | getMuteOp
  | playOp | pauseOp | resumeOp | nextTrackOp | previousTrackOp
  | setRepeatModeOp (m : String)
  | setShuffleOp (b : Bool)
  | setLedOp (c : String)
  | setNameOp (n : String)
  | getApInfoOp | getMusicInfoOp | getCurrentPlayTimeOp
  | setSearchTimeOp (t : Int)
  | getEqModeOp | setEqModeOp (m : String)
  | get7bandEqListOp | set7bandEqPresetOp (i : Int)
  | set7bandEqValueOp (i : Int) (vals : List Int)
  | addCustomEqModeOp (i : Int) (n : String)
  | removeCustomEqModeOp (i : Int)
  | playUrlOp (u : String) (r : Int)
  | groupWithOp (g : String) (others : List Speaker)
  | ungroupOp

/-- Command fragment built by `set_search_time`. -/
def cmdSetSearchTime (t : Int) : String :=
  "<name>SetSearchTime</name><p type=\"dec\" name=\"playtime\" val=\"" ++ pyStrInt t ++ "\"/>"

/-- Command fragment built by `set_eq_mode`. -/
def cmdSetEqMode (m : String) : String :=
  "<name>SetEQMode</name><p type=\"str\" name=\"eqmode\" val=\"" ++ m ++ "\"/>"

/-- Command fragment built by `set_7band_eq_preset`. -/
def cmdSet7bandEqPreset (i : Int) : String :=
  "<name>Set7bandEQMode</name><p type=\"dec\" name=\"presetindex\" val=\"" ++ pyStrInt i ++ "\"/>"

/-- Command fragment built by `set_7band_eq_value`: the preset index
followed by one parameter per EQ value. -/
def cmdSet7bandEqValue (i : Int) (vals : List Int) : String :=
  "<name>Set7bandEQValue</name><p type=\"dec\" name=\"presetindex\" val=\"" ++ pyStrInt i ++ "\"/>" ++
  String.join ((vals.enumFrom 1).map (fun p =>
    "<p type=\"dec\" name=\"eqvalue" ++ pyStrNat p.1 ++ "\" val=\"" ++ pyStrInt p.2 ++ "\"/>"))

/-- Command fragment built by `add_custom_eq_mode`. -/
def cmdAddCustomEqMode (i : Int) (n : String) : String :=
  "<name>AddCustomEQMode</name><p type=\"dec\" name=\"presetindex\" val=\"" ++ pyStrInt i ++
  "\"/><p type=\"str\" name=\"presetname\" val=\"" ++ n ++ "\"/>"

/-- Command fragment built by `remove_custom_eq_mode`. -/
def cmdRemoveCustomEqMode (i : Int) : String :=
  "<name>DelCustomEQMode</name><p type=\"dec\" name=\"presetindex\" val=\"" ++ pyStrInt i ++ "\"/>"

/-- State transition of one entity operation on one speaker: the
operation's effect on the speaker's own cached fields and on the network
state (returned values are dropped; a raised validation error leaves the
speaker unchanged, as the exception fires before any mutation). -/
def stepOp (op : EntityOp) (s : Speaker) (ns : NetState) : Speaker × NetState :=
  match op with
  | .refreshOp => refresh s ns
  | .setVolumeOp v => let (s1, _, ns1) := set_volume s v ns; (s1, ns1)
  | .getVolumeOp => let (s1, _, ns1) := get_volume s ns; (s1, ns1)
  | .setMuteOp c => let (s1, _, ns1) := set_mute s c ns; (s1, ns1)
  | .getMuteOp => let (s1, _, ns1) := get_mute s ns; (s1, ns1)
  | .playOp => let (s1, _, ns1) := fireAndForget s (cmdPlaybackControl "play") ns; (s1, ns1)
  | .pauseOp => let (s1, _, ns1) := fireAndForget s (cmdPlaybackControl "pause") ns; (s1, ns1)
  | .resumeOp => let (s1, _, ns1) := fireAndForget s (cmdPlaybackControl "resume") ns; (s1, ns1)
  | .nextTrackOp => let (s1, _, ns1) := fireAndForget s (cmdPlaybackControl "next") ns; (s1, ns1)
  | .previousTrackOp => let (s1, _, ns1) := fireAndForget s (cmdPlaybackControl "previous") ns; (s1, ns1)
  | .setRepeatModeOp m => let (s1, _, ns1) := set_repeat_mode s m ns; (s1, ns1)
  | .setShuffleOp b => let (s1, _, ns1) := set_shuffle s b ns; (s1, ns1)
  | .setLedOp c => let (s1, _, ns1) := set_led s c ns; (s1, ns1)
  | .setNameOp n => let (s1, _, ns1) := set_name s n ns; (s1, ns1)
  | .getApInfoOp => let (s1, _, ns1) := fireAndForget s "<name>GetApInfo</name>" ns; (s1, ns1)
  | .getMusicInfoOp => let (s1, _, ns1) := fireAndForget s "<name>GetMusicInfo</name>" ns; (s1, ns1)
  | .getCurrentPlayTimeOp => let (s1, _, ns1) := fireAndForget s "<name>GetCurrentPlayTime</name>" ns; (s1, ns1)
  | .setSearchTimeOp t => let (s1, _, ns1) := fireAndForget s (cmdSetSearchTime t) ns; (s1, ns1)
  | .getEqModeOp => let (s1, _, ns1) := fireAndForget s "<name>GetEQMode</name>" ns; (s1, ns1)
  | .setEqModeOp m => let (s1, _, ns1) := fireAndForget s (cmdSetEqMode m) ns; (s1, ns1)
  | .get7bandEqListOp => let (s1, _, ns1) := fireAndForget s "<name>Get7BandEQList</name>" ns; (s1, ns1)
  | .set7bandEqPresetOp i => let (s1, _, ns1) := fireAndForget s (cmdSet7bandEqPreset i) ns; (s1, ns1)
  | .set7bandEqValueOp i vals =>
    if vals.length != 7 then (s, ns)
    else let (s1, _, ns1) := fireAndForget s (cmdSet7bandEqValue i vals) ns; (s1, ns1)
  | .addCustomEqModeOp i n => let (s1, _, ns1) := fireAndForget s (cmdAddCustomEqMode i n) ns; (s1, ns1)
  | .removeCustomEqModeOp i => let (s1, _, ns1) := fireAndForget s (cmdRemoveCustomEqMode i) ns; (s1, ns1)
  | .playUrlOp u r => let (s1, _, ns1) := fireAndForget s (cmdPlayUrl u r) ns; (s1, ns1)
  | .groupWithOp g others => let (s1, _, _, ns1) := group_with_speakers s g others ns; (s1, ns1)
  | .ungroupOp => let (s1, _, ns1) := ungroup s ns; (s1, ns1)

/-! Infrastructure: Python `int(str(v)) = v`, needed because `refresh` and
`get_volume` use `str(self.volume)` as the `.get` default for the volume
field, so an absent volume key re-parses the cached value. -/

theorem isDigit_digitChar10 (m : Nat) : (digitChar10 m).isDigit = true := by
  unfold digitChar10
  split <;> decide

theorem digitVal_digitChar10 (m : Nat) (h : m < 10) : digitVal (digitChar10 m) = m := by
  interval_cases m <;> decide

theorem not_ws_of_isDigit (c : Char) (h : c.isDigit = true) : c.isWhitespace = false := by
  have h1 : c ≠ ' ' := by rintro rfl; simp at h
  have h2 : c ≠ '\t' := by rintro rfl; simp at h
  have h3 : c ≠ '\x0d' := by rintro rfl; simp at h
  have h4 : c ≠ '\n' := by rintro rfl; simp at h
  simp [Char.isWhitespace, h1, h2, h3, h4]

theorem ne_underscore_of_isDigit (c : Char) (h : c.isDigit = true) : (c == '_') = false := by
  by_cases hc : c = '_'
  · subst hc; simp at h
  · simpa using hc

theorem ne_plus_of_isDigit (c : Char) (h : c.isDigit = true) : (c == '+') = false := by
  by_cases hc : c = '+'
  · subst hc; simp at h
  · simpa using hc

theorem ne_minus_of_isDigit (c : Char) (h : c.isDigit = true) : (c == '-') = false := by
  by_cases hc : c = '-'
  · subst hc; simp at h
  · simpa using hc

theorem goDigits_all_digits (L : List Char) (acc : Nat)
    (h : ∀ c ∈ L, c.isDigit = true) :
    goDigits acc L = some (L.foldl (fun a c => a * 10 + digitVal c) acc) := by
  induction L generalizing acc with
  | nil => rfl
  | cons c cs ih =>
    have hc : c.isDigit = true := h c (by simp)
    rw [goDigits.eq_def]
    simp only [ne_underscore_of_isDigit c hc, Bool.false_eq_true, if_false, hc, if_true]
    rw [ih (acc * 10 + digitVal c) (fun d hd => h d (by simp [hd]))]
    rfl

theorem parseUDigits_all_digits (L : List Char) (hne : L ≠ [])
    (h : ∀ c ∈ L, c.isDigit = true) :
    parseUDigits L = some (L.foldl (fun a c => a * 10 + digitVal c) 0) := by
  cases L with
  | nil => exact absurd rfl hne
  | cons c cs =>
    have hc : c.isDigit = true := h c (by simp)
    rw [parseUDigits, hc]
    simp only [if_true]
    rw [goDigits_all_digits cs (digitVal c) (fun d hd => h d (by simp [hd]))]
    simp [List.foldl]

/-- Little-endian decimal value of a digit list. -/
def rvNat : List Char → Nat
  | [] => 0
  | c :: cs => digitVal c + 10 * rvNat cs

theorem natDigitsRevAux_all_digits :
    ∀ fuel n, n < fuel → ∀ c ∈ natDigitsRevAux fuel n, c.isDigit = true := by
  intro fuel
  induction fuel with
  | zero => intro n hn; omega
  | succ f ih =>
    intro n hn c hc
    rw [natDigitsRevAux] at hc
    by_cases h10 : n < 10
    · simp [h10] at hc
      subst hc
      exact isDigit_digitChar10 n
    · simp [h10] at hc
      rcases hc with rfl | hc
      · exact isDigit_digitChar10 (n % 10)
      · exact ih (n / 10) (by omega) c hc

theorem natDigitsRevAux_ne_nil (n : Nat) : natDigitsRevAux (n + 1) n ≠ [] := by
  rw [natDigitsRevAux]
  by_cases h10 : n < 10 <;> simp [h10]

theorem rvNat_natDigitsRevAux :
    ∀ fuel n, n < fuel → rvNat (natDigitsRevAux fuel n) = n := by
  intro fuel
  induction fuel with
  | zero => intro n hn; omega
  | succ f ih =>
    intro n hn
    rw [natDigitsRevAux]
    by_cases h10 : n < 10
    · simp only [h10, if_true]
      rw [rvNat, rvNat, digitVal_digitChar10 n h10]
      omega
    · simp only [h10, if_false]
      rw [rvNat, ih (n / 10) (by omega), digitVal_digitChar10 (n % 10) (by omega)]
      omega

theorem foldl_reverse_rvNat (L : List Char) (acc : Nat) :
    L.reverse.foldl (fun a c => a * 10 + digitVal c) acc = acc * 10 ^ L.length + rvNat L := by
  induction L generalizing acc with
  | nil => simp [rvNat]
  | cons c cs ih =>
    rw [List.reverse_cons, List.foldl_append, ih]
    simp only [List.foldl, List.length_cons, rvNat]
    ring

theorem trimWs_no_ws (L : List Char) (h : ∀ c ∈ L, c.isWhitespace = false) :
    trimWs L = L := by
  have drop1 : ∀ (M : List Char), (∀ c ∈ M, c.isWhitespace = false) →
      M.dropWhile Char.isWhitespace = M := by
    intro M hM
    cases M with
    | nil => rfl
    | cons c cs => rw [List.dropWhile_cons, hM c (by simp)]; rfl
  unfold trimWs
  rw [drop1 L h, drop1 L.reverse (fun c hc => h c (List.mem_reverse.mp hc)), List.reverse_reverse]

theorem pyIntOfString_pyStrNat (n : Nat) : pyIntOfString (pyStrNat n) = some (n : Int) := by
  unfold pyIntOfString pyStrNat
  have hdig : ∀ c ∈ (natDigitsRevAux (n+1) n).reverse, c.isDigit = true := by
    intro c hc
    exact natDigitsRevAux_all_digits (n+1) n (by omega) c (List.mem_reverse.mp hc)
  have hdata : (String.mk (natDigitsRevAux (n+1) n).reverse).data
      = (natDigitsRevAux (n+1) n).reverse := rfl
  rw [hdata, trimWs_no_ws _ (fun c hc => not_ws_of_isDigit c (hdig c hc))]
  split
  · next heq => exact absurd (by simpa using heq) (natDigitsRevAux_ne_nil n)
  · next c rest heq =>
    have hc : c.isDigit = true := hdig c (by rw [heq]; simp)
    rw [ne_plus_of_isDigit c hc, ne_minus_of_isDigit c hc]
    simp only [Bool.false_eq_true, if_false]
    rw [parseUDigits_all_digits (c :: rest) (by simp) (by rw [← heq]; exact hdig)]
    rw [← heq, foldl_reverse_rvNat, rvNat_natDigitsRevAux (n+1) n (by omega)]
    simp

theorem pyIntOfString_pyStrInt (v : Int) : pyIntOfString (pyStrInt v) = some v := by
  cases v with
  | ofNat n => exact pyIntOfString_pyStrNat n
  | negSucc m =>
    unfold pyIntOfString pyStrInt
    have hdata : ("-" ++ pyStrNat (m+1)).data = '-' :: (natDigitsRevAux (m+2) (m+1)).reverse := rfl
    have hdig : ∀ c ∈ (natDigitsRevAux (m+2) (m+1)).reverse, c.isDigit = true := by
      intro c hc
      exact natDigitsRevAux_all_digits (m+2) (m+1) (by omega) c (List.mem_reverse.mp hc)
    have hnw : ∀ c ∈ '-' :: (natDigitsRevAux (m+2) (m+1)).reverse, c.isWhitespace = false := by
      intro c hc
      rcases List.mem_cons.mp hc with rfl | hc
      · decide
      · exact not_ws_of_isDigit c (hdig c hc)
    rw [hdata, trimWs_no_ws _ hnw]
    have hne : (natDigitsRevAux (m+2) (m+1)).reverse ≠ [] := by
      simpa using natDigitsRevAux_ne_nil (m+1)
    split
    · next heq => exact absurd heq (by simp)
    · next c rest heq =>
      have h1 : c = '-' := by injection heq with a b; exact a.symm
      have h2 : rest = (natDigitsRevAux (m+2) (m+1)).reverse := by
        injection heq with a b; exact b.symm
      subst h1
      subst h2
      simp only [show (('-' : Char) == '+') = false by decide, Bool.false_eq_true, if_false,
        show (('-' : Char) == '-') = true by decide, if_true]
      rw [parseUDigits_all_digits _ hne hdig, foldl_reverse_rvNat,
        rvNat_natDigitsRevAux (m+2) (m+1) (by omega)]
      simp [Int.negSucc_eq]

theorem pyIntJ_pyStrInt (v : Int) : pyIntJ (.jstr (pyStrInt v)) = .ok v := by
  rw [pyIntJ, pyIntOfString_pyStrInt]

/-! Infrastructure: classification of one field's response shape, used to
state per-field refresh behaviour independently of the cached values. -/

/-- Dict lookup returning the value. -/
def lookupJ (fs : List (String × JVal)) (k : String) : Option JVal :=
  (fs.find? (fun p => p.1 == k)).map (fun p => p.2)

/-- The `UIC → response` payload of a fully dict-shaped response: `some hs`
exactly when the response is a truthy dict whose `UIC` entry is a dict
whose `response` entry is the dict `hs`. -/
def uicNode : Option JVal → Option (List (String × JVal))
  | some (.jobj fs) =>
    if fs.isEmpty then none
    else
      match lookupJ fs "UIC" with
      | some (.jobj gs) =>
        match lookupJ gs "response" with
        | some (.jobj hs) => some hs
        | _ => none
      | _ => none
  | _ => none

/-- Effect of one field's response on that cached field: keep the cached
value, update to a fresh value, or raise an error (which aborts the rest
of `refresh`). -/
inductive FOut (α : Type) where
  | keep
  | upd (v : α)
  | raise (e : PyErr)
deriving DecidableEq

/-- Final field value given the classified effect and the cached value. -/
def valOf {α : Type} : FOut α → α → α
  | .keep, c => c
  | .upd v, _ => v
  | .raise _, c => c

/-- Whether the classified effect is a raised error. -/
def FOut.isRaise {α : Type} : FOut α → Bool
  | .raise _ => true
  | _ => false

/-- Reading back a classified effect as the `Except` result the field
extraction produces for a given cached value. -/
def outToExcept {α : Type} (f : FOut α) (cur : α) : Except PyErr α :=
  match f with
  | .keep => .ok cur
  | .upd v => .ok v
  | .raise e => .error e

/-- Classified effect of a CDATA-wrapped field response, independent of
the cached value. -/
def cdataOut (key : String) (resp : Option JVal) : FOut String :=
  match guardUIC resp with
  | .error e => .raise e
  | .ok false => .keep
  | .ok true =>
    match resp with
    | none => .keep
    | some r =>
      match respNode r with
      | .error e => .raise e
      | .ok node =>
        match pyGet node key (.jobj []) with
        | .error e => .raise e
        | .ok v1 =>
          match v1 with
          | .jobj fs =>
            match lookupJ fs "#cdata-section" with
            | none => .keep
            | some (.jstr v) => .upd v
            | some _ => .raise .illTyped
          | _ => .raise .attributeError

/-- Classified effect of a plain field response, independent of the cached
value. -/
def plainOut (key : String) (resp : Option JVal) : FOut String :=
  match guardUIC resp with
  | .error e => .raise e
  | .ok false => .keep
  | .ok true =>
    match resp with
    | none => .keep
    | some r =>
      match respNode r with
      | .error e => .raise e
      | .ok node =>
        match node with
        | .jobj fs =>
          match lookupJ fs key with
          | none => .keep
          | some (.jstr v) => .upd v
          | some _ => .raise .illTyped
        | _ => .raise .attributeError

/-- Classified effect of the volume field response, independent of the
cached value. -/
def volOut (resp : Option JVal) : FOut Int :=
  match guardUIC resp with
  | .error e => .raise e
  | .ok false => .keep
  | .ok true =>
    match resp with
    | none => .keep
    | some r =>
      match respNode r with
      | .error e => .raise e
      | .ok node =>
        match node with
        | .jobj fs =>
          match lookupJ fs "volume" with
          | none => .keep
          | some v =>
            match pyIntJ v with
            | .ok n => .upd n
            | .error .valueError => .keep
            | .error e => .raise e
        | _ => .raise .attributeError

theorem pyGet_jobj (fs : List (String × JVal)) (k : String) (d : JVal) :
    pyGet (.jobj fs) k d = .ok ((lookupJ fs k).getD d) := rfl

theorem cdataField_eq_out (key cur : String) (resp : Option JVal) :
    cdataField key cur resp = outToExcept (cdataOut key resp) cur := by
  unfold outToExcept
  unfold cdataField cdataOut
  cases hguard : guardUIC resp with
  | error e => rfl
  | ok b =>
    cases b with
    | false => rfl
    | true =>
      cases resp with
      | none => rfl
      | some r =>
        dsimp only
        cases hnode : respNode r with
        | error e => rfl
        | ok node =>
          dsimp only
          cases hget : pyGet node key (.jobj []) with
          | error e => rfl
          | ok v1 =>
            dsimp only
            cases v1 with
            | jstr w => rfl
            | jint n => rfl
            | jobj fs =>
              dsimp only
              rw [pyGet_jobj]
              cases hlk : lookupJ fs "#cdata-section" with
              | none => rfl
              | some v2 => cases v2 <;> rfl

theorem plainField_eq_out (key cur : String) (resp : Option JVal) :
    plainField key cur resp = outToExcept (plainOut key resp) cur := by
  unfold outToExcept
  unfold plainField plainOut
  cases hguard : guardUIC resp with
  | error e => rfl
  | ok b =>
    cases b with
    | false => rfl
    | true =>
      cases resp with
      | none => rfl
      | some r =>
        dsimp only
        cases hnode : respNode r with
        | error e => rfl
        | ok node =>
          dsimp only
          cases node with
          | jstr v => rfl
          | jint n => rfl
          | jobj fs =>
            dsimp only
            rw [pyGet_jobj]
            cases hlk : lookupJ fs key with
            | none => rfl
            | some v1 => cases v1 <;> rfl

theorem volumeField_eq_out (cur : Int) (resp : Option JVal) :
    volumeField cur resp = outToExcept (volOut resp) cur := by
  unfold outToExcept
  unfold volumeField volOut
  cases hguard : guardUIC resp with
  | error e => rfl
  | ok b =>
    cases b with
    | false => rfl
    | true =>
      cases resp with
      | none => rfl
      | some r =>
        dsimp only
        cases hnode : respNode r with
        | error e => rfl
        | ok node =>
          dsimp only
          cases node with
          | jstr v => rfl
          | jint n => rfl
          | jobj fs =>
            dsimp only
            rw [pyGet_jobj]
            cases hlk : lookupJ fs "volume" with
            | none =>
              simp only [Option.getD_none]
              rw [pyIntJ_pyStrInt]
            | some v1 =>
              simp only [Option.getD_some]
              cases hint : pyIntJ v1 with
              | ok n => rfl
              | error e => cases e <;> rfl

theorem any_of_lookupJ (fs : List (String × JVal)) (k : String) (v : JVal)
    (h : lookupJ fs k = some v) : fs.any (fun p => p.1 == k) = true := by
  unfold lookupJ at h
  rcases Option.map_eq_some'.mp h with ⟨pr, hfind, hv⟩
  have hp := List.find?_some hfind
  exact List.any_eq_true.mpr ⟨pr, List.mem_of_find?_eq_some hfind, hp⟩

theorem pyIndex_of_lookupJ (fs : List (String × JVal)) (k : String) (v : JVal)
    (h : lookupJ fs k = some v) : pyIndex (.jobj fs) k = .ok v := by
  unfold lookupJ at h
  rcases Option.map_eq_some'.mp h with ⟨pr, hfind, hv⟩
  unfold pyIndex
  dsimp only
  rw [hfind]
  dsimp only
  rw [hv]

theorem uicNode_some (resp : Option JVal) (hs : List (String × JVal))
    (h : uicNode resp = some hs) :
    guardUIC resp = .ok true ∧
      ∃ r, resp = some r ∧ respNode r = .ok (.jobj hs) := by
  rcases resp with _ | r
  · exact absurd h (by simp [uicNode])
  · rcases r with s | n | fs
    · exact absurd h (by simp [uicNode])
    · exact absurd h (by simp [uicNode])
    · unfold uicNode at h
      by_cases hemp : fs.isEmpty
      · simp [hemp] at h
      · simp only [hemp, Bool.false_eq_true, if_false] at h
        rcases hu : lookupJ fs "UIC" with _ | u <;> rw [hu] at h
        · simp at h
        · rcases u with s | n | gs
          · simp at h
          · simp at h
          · dsimp only at h
            rcases hr : lookupJ gs "response" with _ | w <;> rw [hr] at h
            · simp at h
            · rcases w with s | n | hs2
              · simp at h
              · simp at h
              · dsimp only at h
                simp only [Option.some_inj] at h
                subst h
                refine ⟨?_, .jobj fs, rfl, ?_⟩
                · simp [guardUIC, JVal.truthy, hemp, pyContains,
                    any_of_lookupJ fs "UIC" (.jobj gs) hu,
                    pyIndex_of_lookupJ fs "UIC" (.jobj gs) hu,
                    any_of_lookupJ gs "response" (.jobj hs2) hr]
                · simp [respNode, pyIndex_of_lookupJ fs "UIC" (.jobj gs) hu,
                    pyIndex_of_lookupJ gs "response" (.jobj hs2) hr]

/-! Infrastructure: first-occurrence deduplication and the ungroup loop. -/

theorem memB_nil (x : String) : memB x [] = false := rfl

theorem memB_cons (x a : String) (l : List String) :
    memB x (a :: l) = (x == a || memB x l) := rfl

theorem dedupByIp_sublist : ∀ (L : List Speaker) (seen : List String),
    (dedupByIp L seen).Sublist L := by
  intro L
  induction L with
  | nil => intro seen; simp [dedupByIp]
  | cons s rest ih =>
    intro seen
    rw [dedupByIp]
    by_cases hseen : memB s.ip_address seen
    · simp only [hseen, if_true]
      exact (ih seen).cons s
    · simp only [hseen, Bool.false_eq_true, if_false]
      exact (ih (s.ip_address :: seen)).cons₂ s

theorem dedupByIp_filter : ∀ (L : List Speaker) (seen : List String) (A : String),
    (dedupByIp L seen).filter (fun sp => sp.ip_address == A) =
      (if memB A seen then [] else (L.find? (fun sp => sp.ip_address == A)).toList) := by
  intro L
  induction L with
  | nil => intro seen A; simp [dedupByIp]
  | cons s rest ih =>
    intro seen A
    rw [dedupByIp]
    by_cases hA : (s.ip_address == A) = true
    · have hAe : s.ip_address = A := eq_of_beq hA
      subst hAe
      by_cases hseen : memB s.ip_address seen
      · simp only [hseen, if_true]
        rw [ih seen s.ip_address]
        simp [hseen]
      · simp only [hseen, Bool.false_eq_true, if_false]
        rw [List.filter_cons]
        simp only [beq_self_eq_true, if_true]
        rw [ih (s.ip_address :: seen) s.ip_address]
        have hmem : memB s.ip_address (s.ip_address :: seen) = true := by
          rw [memB_cons, beq_self_eq_true]
          rfl
        rw [hmem]
        rw [List.find?_cons_of_pos _ (by simp)]
        simp [hseen]
    · have hfind : (s :: rest).find? (fun sp => sp.ip_address == A) =
          rest.find? (fun sp => sp.ip_address == A) :=
        List.find?_cons_of_neg _ (by simpa using hA)
      have hAs : (A == s.ip_address) = false := by
        rw [Bool.beq_comm]
        simpa using hA
      by_cases hseen : memB s.ip_address seen
      · simp only [hseen, if_true]
        rw [ih seen A, hfind]
      · simp only [hseen, Bool.false_eq_true, if_false]
        rw [List.filter_cons]
        simp only [hA, Bool.false_eq_true, if_false]
        rw [ih (s.ip_address :: seen) A, hfind]
        have hc : memB A (s.ip_address :: seen) = memB A seen := by
          rw [memB_cons, hAs]
          rfl
        rw [hc]

/-- First-occurrence deduplication of a string list against a seen set. -/
def dedupStr (seen : List String) : List String → List String
  | [] => []
  | a :: rest =>
    if memB a seen then dedupStr seen rest else a :: dedupStr (a :: seen) rest

/-- Occurrence count of a string in a list. -/
def countOcc (A : String) : List String → Nat
  | [] => 0
  | a :: rest => (if a == A then 1 else 0) + countOcc A rest

theorem dedupStr_congr : ∀ (L : List String) (s1 s2 : List String),
    (∀ x, memB x s1 = memB x s2) → dedupStr s1 L = dedupStr s2 L := by
  intro L
  induction L with
  | nil => intro s1 s2 h; rfl
  | cons a rest ih =>
    intro s1 s2 h
    rw [dedupStr, dedupStr, h a]
    by_cases hc : memB a s2
    · simp only [hc, if_true]
      exact ih s1 s2 h
    · simp only [hc, Bool.false_eq_true, if_false]
      rw [ih (a :: s1) (a :: s2) (fun x => by rw [memB_cons, memB_cons, h x])]

theorem countOcc_dedupStr : ∀ (L : List String) (seen : List String) (A : String),
    countOcc A (dedupStr seen L) =
      (if memB A seen then 0 else if memB A L then 1 else 0) := by
  intro L
  induction L with
  | nil => intro seen A; simp [dedupStr, countOcc, memB]
  | cons a rest ih =>
    intro seen A
    rw [dedupStr]
    by_cases hA : (A == a) = true
    · have hAe : A = a := eq_of_beq hA
      subst hAe
      by_cases hseen : memB A seen
      · simp only [hseen, if_true]
        rw [ih seen A]
        simp [hseen]
      · simp only [hseen, Bool.false_eq_true, if_false]
        rw [countOcc, ih (A :: seen) A]
        have hmem : memB A (A :: seen) = true := by
          rw [memB_cons, beq_self_eq_true]
          rfl
        rw [hmem, memB_cons, beq_self_eq_true]
        simp [hseen]
    · have hA2 : (A == a) = false := by simpa using hA
      have hrev : (a == A) = false := by
        rw [Bool.beq_comm]
        exact hA2
      by_cases hseen : memB a seen
      · simp only [hseen, if_true]
        rw [ih seen A, memB_cons, hA2]
        rfl
      · simp only [hseen, Bool.false_eq_true, if_false]
        rw [countOcc, ih (a :: seen) A]
        have hc : memB A (a :: seen) = memB A seen := by
          rw [memB_cons, hA2]
          rfl
        rw [hc, memB_cons, hA2, hrev]
        simp

theorem length_filter_ip (l : List Speaker) (A : String) :
    (l.filter (fun sp => sp.ip_address == A)).length =
      countOcc A (l.map Speaker.ip_address) := by
  induction l with
  | nil => rfl
  | cons s rest ih =>
    rw [List.filter_cons, List.map_cons, countOcc]
    by_cases hA : (s.ip_address == A) = true
    · simp only [hA, if_true]
      rw [List.length_cons, ih]
      omega
    · simp only [hA, Bool.false_eq_true, if_false]
      rw [ih]
      omega

/-- Source addresses of the datagrams containing the SSDP search target,
in arrival order. -/
def matchedIps (datagrams : List (String × String)) : List String :=
  (datagrams.filter (fun p => substrB ssdpTarget p.1)).map Prod.snd

theorem any_ip_memB (acc : List Speaker) (addr : String) :
    (acc.any fun e => e.ip_address == addr) = memB addr (acc.map Speaker.ip_address) := by
  induction acc with
  | nil => rfl
  | cons s rest ih =>
    rw [List.any_cons, List.map_cons, memB, Bool.beq_comm, ih]

theorem discoverLoop_map_ip : ∀ (dgs : List (String × String)) (acc : List Speaker)
    (ns : NetState),
    (discoverLoop dgs acc ns).1.map Speaker.ip_address =
      acc.map Speaker.ip_address ++
        dedupStr (acc.map Speaker.ip_address) (matchedIps dgs) := by
  intro dgs
  induction dgs with
  | nil => intro acc ns; simp [discoverLoop, matchedIps, dedupStr]
  | cons dg rest ih =>
    intro acc ns
    rcases dg with ⟨payload, addr⟩
    rw [discoverLoop]
    by_cases hm : substrB ssdpTarget payload
    · simp only [hm, if_true]
      have hmatched : matchedIps ((payload, addr) :: rest) = addr :: matchedIps rest := by
        simp [matchedIps, List.filter_cons, hm]
      rw [hmatched, dedupStr]
      dsimp only [callCmd]
      by_cases hc : memB addr (acc.map Speaker.ip_address)
      · have hany : (acc.any fun e => e.ip_address == addr) = true := by
          rw [any_ip_memB]; exact hc
        simp only [hany, if_true, hc]
        exact ih acc _
      · have hany : (acc.any fun e => e.ip_address == addr) = false := by
          rw [any_ip_memB]; simpa using hc
        simp only [hany, Bool.false_eq_true, if_false, hc]
        rw [ih _ _]
        have hmap : ((acc ++ [({ ip_address := addr, name := resolveName addr (send_command (ns.oracle ns.calls)) } : Speaker)]).map Speaker.ip_address) = acc.map Speaker.ip_address ++ [addr] := by
          simp
        rw [hmap]
        rw [dedupStr_congr (matchedIps rest) (acc.map Speaker.ip_address ++ [addr])
          (addr :: acc.map Speaker.ip_address) (fun x => by
            induction acc.map Speaker.ip_address with
            | nil => simp [memB_cons, memB_nil]
            | cons b bs ihb =>
              rw [List.cons_append, memB_cons, ihb, memB_cons, memB_cons, memB_cons]
              cases x == b <;> cases x == addr <;> cases memB x bs <;> rfl)]
        simp
    · simp only [hm, Bool.false_eq_true, if_false]
      have hmatched : matchedIps ((payload, addr) :: rest) = matchedIps rest := by
        simp [matchedIps, List.filter_cons, hm]
      rw [hmatched]
      exact ih acc ns

/-- Per-element relation established by ungrouping a list of speakers:
all fields preserved except that the group name is either kept or cleared. -/
def ungroupRel (o o1 : Speaker) : Prop :=
  o1.ip_address = o.ip_address ∧ o1.name = o.name ∧ o1.led = o.led ∧
  o1.mute = o.mute ∧ o1.volume = o.volume ∧ o1.repeat_mode = o.repeat_mode ∧
  o1.mac = o.mac ∧ o1.port = o.port ∧
  (o1.group_name = o.group_name ∨ o1.group_name = "")

theorem ungroup_fields (s : Speaker) (ns : NetState) :
    ungroupRel s (ungroup s ns).1 ∧
    (ungroup s ns).2.2.oracle = ns.oracle ∧
    (ungroup s ns).2.2.calls = ns.calls + 1 ∧
    (ungroup s ns).2.2.trace = ns.trace ++ [(s.ip_address, cmdUngroup)] := by
  unfold ungroup callCmd
  by_cases ht : respTruthy (send_command (ns.oracle ns.calls))
  · simp [ht, ungroupRel]
  · simp [ht, ungroupRel]

theorem ungroupList_spec : ∀ (l : List Speaker) (ns : NetState),
    (ungroupList l ns).2.oracle = ns.oracle ∧
    (ungroupList l ns).2.calls = ns.calls + l.length ∧
    (ungroupList l ns).2.trace = ns.trace ++ l.map (fun o => (o.ip_address, cmdUngroup)) ∧
    List.Forall₂ ungroupRel l (ungroupList l ns).1 := by
  intro l
  induction l with
  | nil => intro ns; simp [ungroupList]
  | cons s rest ih =>
    intro ns
    rw [ungroupList]
    obtain ⟨hrel, horacle, hcalls, htrace⟩ := ungroup_fields s ns
    obtain ⟨ih1, ih2, ih3, ih4⟩ := ih (ungroup s ns).2.2
    refine ⟨by rw [ih1, horacle], ?_, ?_, ?_⟩
    · rw [ih2, hcalls]
      simp only [List.length_cons]
      omega
    · rw [ih3, htrace]
      simp
    · exact List.Forall₂.cons hrel ih4

theorem forall2_map_ip_mac : ∀ {l1 l2 : List Speaker}, List.Forall₂ ungroupRel l1 l2 →
    l2.map (fun o => (o.ip_address, o.mac)) = l1.map (fun o => (o.ip_address, o.mac)) := by
  intro l1 l2 h
  induction h with
  | nil => rfl
  | cons hrel _ ih =>
    simp only [List.map_cons, ih]
    obtain ⟨hip, _, _, _, _, _, hmac, _, _⟩ := hrel
    rw [hip, hmac]

theorem ungroupList_ip_mac (l : List Speaker) (ns : NetState) :
    (ungroupList l ns).1.map (fun o => (o.ip_address, o.mac)) =
      l.map (fun o => (o.ip_address, o.mac)) :=
  forall2_map_ip_mac (ungroupList_spec l ns).2.2.2

theorem outToExcept_eq_ok {α : Type} (f : FOut α) (cur : α) (h : f.isRaise = false) :
    outToExcept f cur = .ok (valOf f cur) := by
  cases f with
  | keep => rfl
  | upd v => rfl
  | raise e => simp [FOut.isRaise] at h

/-- Claim C2: `_send_command` returns the parsed mapping on an HTTP 200
response with parseable body, the raw body under the fallback key
`raw_response` on HTTP 200 with an unparseable body, and no result on any
non-200 status or transport failure; no exception escapes (the model is a
total function). -/
theorem c2_send_command_behaviour (status : Nat) (body : String) (parsed : Option JVal) :
    (status = 200 → ∀ j, parsed = some j →
      send_command (.httpResponse status body parsed) = some j) ∧
    (status = 200 → parsed = none →
      send_command (.httpResponse status body parsed) =
        some (.jobj [("raw_response", .jstr body)])) ∧
    (status ≠ 200 → send_command (.httpResponse status body parsed) = none) ∧
    send_command .requestError = none := by
  refine ⟨?_, ?_, ?_, rfl⟩
  · rintro rfl j rfl
    rfl
  · rintro rfl rfl
    rfl
  · intro hne
    have hb : (status == 200) = false := by simpa using hne
    simp [send_command, hb]

/-- Witness for C2 at concrete inputs. -/
theorem c2_send_command_behaviour_witness :
    send_command (.httpResponse 200 "body" (some (.jstr "x"))) = some (.jstr "x") ∧
    send_command (.httpResponse 200 "raw" none) =
      some (.jobj [("raw_response", .jstr "raw")]) ∧
    send_command (.httpResponse 404 "e" none) = none := by
  refine ⟨(c2_send_command_behaviour 200 "body" (some (.jstr "x"))).1 rfl _ rfl,
    (c2_send_command_behaviour 200 "raw" none).2.1 rfl rfl,
    (c2_send_command_behaviour 404 "e" none).2.2.1 (by decide)⟩

/-- Claim C1: `set_volume v` issues exactly one command, carrying the
clamped level `max 0 (min 30 v)`; a truthy result updates the cached
volume to the clamped level, no result leaves the speaker unchanged, and
there is no confirmation re-read. -/
theorem c1_set_volume_clamps (s : Speaker) (v : Int) (ns : NetState) :
    (set_volume s v ns).2.2.trace =
      ns.trace ++ [(s.ip_address, cmdSetVolume (max 0 (min 30 v)))] ∧
    (set_volume s v ns).2.2.calls = ns.calls + 1 ∧
    (respTruthy (set_volume s v ns).2.1 = true →
      (set_volume s v ns).1.volume = max 0 (min 30 v)) ∧
    ((set_volume s v ns).2.1 = none → (set_volume s v ns).1 = s) ∧
    (set_volume s v ns).2.1 = send_command (ns.oracle ns.calls) := by
  unfold set_volume callCmd
  dsimp only
  by_cases ht : respTruthy (send_command (ns.oracle ns.calls)) = true
  · rw [if_pos ht]
    refine ⟨rfl, rfl, fun _ => rfl, ?_, rfl⟩
    intro h
    rw [h] at ht
    exact absurd ht (by simp [respTruthy])
  · rw [if_neg ht]
    exact ⟨rfl, rfl, fun h => absurd h ht, fun _ => rfl, rfl⟩

/-- Witness for C1: out-of-range request 999 is clamped to 30 and cached
on a truthy result. -/
theorem c1_set_volume_clamps_witness :
    (set_volume { ip_address := "10.0.0.1" } 999
      { oracle := fun _ => .httpResponse 200 "" (some (.jobj [("ok", .jint 1)])) }).1.volume = 30 ∧
    (set_volume { ip_address := "10.0.0.1" } 999
      { oracle := fun _ => .httpResponse 200 "" (some (.jobj [("ok", .jint 1)])) }).2.2.trace =
      [("10.0.0.1", cmdSetVolume 30)] := by
  have h := c1_set_volume_clamps { ip_address := "10.0.0.1" } 999
    { oracle := fun _ => .httpResponse 200 "" (some (.jobj [("ok", .jint 1)])) }
  refine ⟨?_, ?_⟩
  · rw [h.2.2.1 (by decide)]
    decide
  · rw [h.1]
    decide

/-- Claim C6: `set_mute` raises an invalid-argument error on any choice
other than `on`/`off`, before any network call and without touching the
cache; for a valid choice, a truthy result updates the cached mute to
exactly the choice. -/
theorem c6_set_mute_validation (s : Speaker) (choice : String) (ns : NetState) :
    (¬(choice = "on" ∨ choice = "off") →
      (set_mute s choice ns).2.1 = .error .valueError ∧
      (set_mute s choice ns).2.2 = ns ∧
      (set_mute s choice ns).1 = s) ∧
    ((choice = "on" ∨ choice = "off") →
      (set_mute s choice ns).2.2.trace =
        ns.trace ++ [(s.ip_address, cmdSetMute choice)] ∧
      (set_mute s choice ns).2.2.calls = ns.calls + 1 ∧
      (respTruthy (set_mute s choice ns).2.1.toOption.join = true →
        (set_mute s choice ns).1.mute = choice)) := by
  by_cases hv : choice = "on" ∨ choice = "off"
  · have hb : (choice == "on" || choice == "off") = true := by
      rcases hv with rfl | rfl <;> decide
    constructor
    · intro h
      exact absurd hv h
    · intro _
      unfold set_mute callCmd
      rw [hb]
      dsimp only
      by_cases ht : respTruthy (send_command (ns.oracle ns.calls)) = true
      · rw [if_pos ht]
        exact ⟨rfl, rfl, fun _ => rfl⟩
      · rw [if_neg ht]
        refine ⟨rfl, rfl, fun h => ?_⟩
        simp only [Except.toOption, Option.join] at h
        exact absurd h ht
  · have hon : ¬choice = "on" := fun h => hv (Or.inl h)
    have hoff : ¬choice = "off" := fun h => hv (Or.inr h)
    have hb : (choice == "on" || choice == "off") = false := by
      have h1 : (choice == "on") = false := by simpa using hon
      have h2 : (choice == "off") = false := by simpa using hoff
      rw [h1, h2]
      rfl
    constructor
    · intro _
      unfold set_mute
      rw [hb]
      exact ⟨rfl, rfl, rfl⟩
    · intro h
      exact absurd h hv

/-- Witness for C6: `set_mute "loud"` raises before any call; `set_mute
"on"` with a truthy result caches `on`. -/
theorem c6_set_mute_validation_witness :
    (set_mute { ip_address := "10.0.0.1" } "loud" { oracle := fun _ => .requestError }).2.1 =
      .error .valueError ∧
    (set_mute { ip_address := "10.0.0.1" } "loud"
      { oracle := fun _ => .requestError }).2.2.trace = [] ∧
    (set_mute { ip_address := "10.0.0.1" } "on"
      { oracle := fun _ => .httpResponse 200 "" (some (.jobj [("ok", .jint 1)])) }).1.mute =
      "on" := by
  have h1 := (c6_set_mute_validation { ip_address := "10.0.0.1" } "loud"
    { oracle := fun _ => .requestError }).1 (by simp)
  have h2 := (c6_set_mute_validation { ip_address := "10.0.0.1" } "on"
    { oracle := fun _ => .httpResponse 200 "" (some (.jobj [("ok", .jint 1)])) }).2
    (Or.inl rfl)
  refine ⟨h1.1, ?_, h2.2.2 (by decide)⟩
  rw [h1.2.1]

/-- Claim C3: the controller's merge keeps the order of
discovered-then-persisted speakers (sublist), keeps exactly the first
occurrence per address (the filter by any address equals the first match
of the concatenation), and when both lists carry an address the surviving
entry is the first discovered one. -/
theorem c3_discover_merge (discovered config : List Speaker) :
    (discover_merge discovered config).Sublist (discovered ++ config) ∧
    (∀ A, (discover_merge discovered config).filter (fun sp => sp.ip_address == A) =
      ((discovered ++ config).find? (fun sp => sp.ip_address == A)).toList) ∧
    (∀ A d, d ∈ discovered → d.ip_address = A →
      (discover_merge discovered config).filter (fun sp => sp.ip_address == A) =
        (discovered.find? (fun sp => sp.ip_address == A)).toList) := by
  have hfilter : ∀ A, (discover_merge discovered config).filter
      (fun sp => sp.ip_address == A) =
      ((discovered ++ config).find? (fun sp => sp.ip_address == A)).toList := by
    intro A
    unfold discover_merge
    rw [dedupByIp_filter]
    rfl
  refine ⟨dedupByIp_sublist _ [], hfilter, ?_⟩
  intro A d hd hdA
  rw [hfilter A, List.find?_append]
  have hsome : (discovered.find? (fun sp => sp.ip_address == A)).isSome := by
    rw [List.find?_isSome]
    exact ⟨d, hd, by rw [hdA]; exact beq_self_eq_true A⟩
  rcases hfound : discovered.find? (fun sp => sp.ip_address == A) with _ | x
  · rw [hfound] at hsome
    simp at hsome
  · rw [hfound]
    rfl

/-- Witness for C3: with a fresh entry and a stale persisted record for
the same address, exactly the discovered entry survives. -/
theorem c3_discover_merge_witness :
    discover_merge [{ ip_address := "10.0.0.7", name := "New" }]
        [{ ip_address := "10.0.0.7", name := "Old" }, { ip_address := "10.0.0.8", name := "B" }] =
      [{ ip_address := "10.0.0.7", name := "New" }, { ip_address := "10.0.0.8", name := "B" }] ∧
    (discover_merge [{ ip_address := "10.0.0.7", name := "New" }]
        [{ ip_address := "10.0.0.7", name := "Old" }, { ip_address := "10.0.0.8", name := "B" }]).filter
      (fun sp => sp.ip_address == "10.0.0.7") = [{ ip_address := "10.0.0.7", name := "New" }] := by
  have h := (c3_discover_merge [{ ip_address := "10.0.0.7", name := "New" }]
    [{ ip_address := "10.0.0.7", name := "Old" }, { ip_address := "10.0.0.8", name := "B" }]).2.2
    "10.0.0.7" { ip_address := "10.0.0.7", name := "New" } (by decide) (by decide)
  refine ⟨by decide, ?_⟩
  rw [h]
  decide

/-- Claim C7: within one discovery run, the addresses of the returned
speakers are exactly the first-occurrence deduplication of the source
addresses of the datagrams containing the search-target string, so each
matching source address contributes exactly one speaker and non-matching
datagrams contribute none. -/
theorem c7_discovery_dedup (datagrams : List (String × String)) (ns : NetState) :
    ((discover_speakers datagrams ns).1.map Speaker.ip_address =
      dedupStr [] (matchedIps datagrams)) ∧
    (∀ A, ((discover_speakers datagrams ns).1.filter
        (fun sp => sp.ip_address == A)).length =
      (if memB A (matchedIps datagrams) then 1 else 0)) := by
  have hmap := discoverLoop_map_ip datagrams [] ns
  simp only [List.map_nil, List.nil_append] at hmap
  constructor
  · exact hmap
  · intro A
    rw [length_filter_ip]
    unfold discover_speakers
    rw [hmap, countOcc_dedupStr]
    rfl

/-- Claim C10: neither loading a persisted record nor `get_volume` clamps:
a record's integer volume is cached verbatim, and a device-reported volume
is cached and returned verbatim, even outside [0, 30]. -/
theorem c10_volume_verbatim :
    (∀ (r : ConfigRecord) (v : Int), r.volumeField = some v →
      (speakerOfRecord r).volume = v) ∧
    (∀ (records : List ConfigRecord),
      (load_speakers_from_config records).map Speaker.volume =
        records.map (fun r => r.volumeField.getD 10)) ∧
    (∀ (s : Speaker) (ns : NetState) (hs : List (String × JVal)) (n : Int),
      uicNode (send_command (ns.oracle ns.calls)) = some hs →
      (lookupJ hs "volume" = some (.jint n) ∨
        (∃ w, lookupJ hs "volume" = some (.jstr w) ∧ pyIntOfString w = some n)) →
      (get_volume s ns).1.volume = n ∧ (get_volume s ns).2.1 = .ok n) := by
  refine ⟨?_, ?_, ?_⟩
  · intro r v hv
    unfold speakerOfRecord
    rw [hv]
    rfl
  · intro records
    unfold load_speakers_from_config
    rw [List.map_map]
    rfl
  · intro s ns hs n huic hlk
    obtain ⟨hg, r, hr, hnode⟩ := uicNode_some _ hs huic
    unfold get_volume callCmd
    dsimp only
    rw [hr] at hg ⊢
    rw [hg]
    dsimp only
    rw [hnode]
    dsimp only
    rw [pyGet_jobj]
    rcases hlk with hlk | ⟨w, hlk, hw⟩
    · rw [hlk]
      exact ⟨rfl, rfl⟩
    · rw [hlk]
      simp only [Option.getD_some]
      have : pyIntJ (.jstr w) = .ok n := by
        rw [pyIntJ, hw]
      rw [this]
      exact ⟨rfl, rfl⟩

/-- Witness for C10: a persisted volume of -5 loads verbatim, and a
device-reported volume of 999 is cached and returned verbatim. -/
theorem c10_volume_verbatim_witness :
    (speakerOfRecord { volumeField := some (-5) }).volume = -5 ∧
    (get_volume { ip_address := "10.0.0.1" }
      { oracle := fun _ => .httpResponse 200 "" (some (.jobj [("UIC", .jobj [("response",
        .jobj [("volume", .jstr "999")])])])) }).1.volume = 999 := by
  refine ⟨c10_volume_verbatim.1 { volumeField := some (-5) } (-5) rfl, ?_⟩
  exact (c10_volume_verbatim.2.2 { ip_address := "10.0.0.1" }
    { oracle := fun _ => .httpResponse 200 "" (some (.jobj [("UIC", .jobj [("response",
      .jobj [("volume", .jstr "999")])])])) }
    [("volume", .jstr "999")] 999 rfl
    (Or.inr ⟨"999", rfl, by decide⟩)).1

theorem group_with_spec (s : Speaker) (g : String) (others : List Speaker) (ns : NetState) :
    (group_with_speakers s g others ns).2.2.2.oracle = ns.oracle ∧
    (group_with_speakers s g others ns).2.2.2.calls = ns.calls + others.length + 2 ∧
    (group_with_speakers s g others ns).2.2.2.trace =
      ns.trace ++ [(s.ip_address, cmdUngroup)] ++
        others.map (fun o => (o.ip_address, cmdUngroup)) ++
        [(s.ip_address,
          groupCmd g s.name s.mac (others.map (fun o => (o.ip_address, o.mac))))] ∧
    (group_with_speakers s g others ns).1.ip_address = s.ip_address ∧
    (group_with_speakers s g others ns).1.name = s.name ∧
    (group_with_speakers s g others ns).1.led = s.led ∧
    (group_with_speakers s g others ns).1.mute = s.mute ∧
    (group_with_speakers s g others ns).1.volume = s.volume ∧
    (group_with_speakers s g others ns).1.repeat_mode = s.repeat_mode ∧
    (group_with_speakers s g others ns).1.mac = s.mac ∧
    (group_with_speakers s g others ns).1.port = s.port ∧
    (respTruthy (group_with_speakers s g others ns).2.2.1 = true →
      (group_with_speakers s g others ns).1.group_name = g) ∧
    ((group_with_speakers s g others ns).1.group_name = g ∨
      (group_with_speakers s g others ns).1.group_name = "" ∨
      (group_with_speakers s g others ns).1.group_name = s.group_name) ∧
    List.Forall₂ ungroupRel others (group_with_speakers s g others ns).2.1 ∧
    (group_with_speakers s g others ns).2.2.1 =
      send_command (ns.oracle (ns.calls + others.length + 1)) := by
  obtain ⟨hrel, ho, hc, htr⟩ := ungroup_fields s ns
  have lspec := ungroupList_spec others (ungroup s ns).2.2
  have hipmac := ungroupList_ip_mac others (ungroup s ns).2.2
  rcases hu : ungroup s ns with ⟨s1, r1, ns1⟩
  simp only [hu] at hrel ho hc htr lspec hipmac
  obtain ⟨lo, lc, ltr, lrel⟩ := lspec
  rcases hl : ungroupList others ns1 with ⟨others1, ns2⟩
  simp only [hl] at lo lc ltr lrel hipmac
  obtain ⟨hip, hname, hled, hmute, hvol, hrep, hmac, hport, hgrp⟩ := hrel
  have hcmd : groupCmd g s1.name s1.mac (others1.map (fun o => (o.ip_address, o.mac))) =
      groupCmd g s.name s.mac (others.map (fun o => (o.ip_address, o.mac))) := by
    rw [hname, hmac, hipmac]
  unfold group_with_speakers callCmd
  rw [hu]
  dsimp only
  rw [hl]
  dsimp only
  have hcalls2 : ns2.calls = ns.calls + others.length + 1 := by omega
  refine ⟨?_, ?_, ?_, ?_⟩
  · rw [lo, ho]
  · omega
  · rw [ltr, htr, hcmd, hip]
  · by_cases ht : respTruthy (send_command (ns2.oracle ns2.calls)) = true
    · rw [if_pos ht]
      refine ⟨hip, hname, hled, hmute, hvol, hrep, hmac, hport, fun _ => rfl,
        Or.inl rfl, lrel, ?_⟩
      rw [lo, ho, hcalls2]
    · rw [if_neg ht]
      refine ⟨hip, hname, hled, hmute, hvol, hrep, hmac, hport, ?_, ?_, lrel, ?_⟩
      · intro h
        rw [lo, ho, hcalls2] at ht
        rw [lo, ho, hcalls2] at h
        exact absurd h ht
      · rcases hgrp with h | h
        · exact Or.inr (Or.inr h)
        · exact Or.inr (Or.inl h)
      · rw [lo, ho, hcalls2]

/-- Claim C4: `create_group` resolves the given names against the working
set; with fewer than two resolvable names it returns without any network
call, otherwise the first resolvable name is the main speaker and the
whole network activity is one ungroup per participant followed by exactly
one group-creation command, issued to the main speaker's address and
naming the sub-speakers' addresses; unresolvable names merely drop out. -/
theorem c4_create_group (speakers : List Speaker) (gname : String)
    (names : List String) (ns : NetState) :
    ((names.filterMap (get_speaker_by_name speakers)).length < 2 →
      create_group speakers gname names ns = (none, ns)) ∧
    (∀ mainSpk subs, names.filterMap (get_speaker_by_name speakers) = mainSpk :: subs →
      subs ≠ [] →
      (create_group speakers gname names ns).2.trace =
        ns.trace ++ [(mainSpk.ip_address, cmdUngroup)] ++
          subs.map (fun o => (o.ip_address, cmdUngroup)) ++
          [(mainSpk.ip_address,
            groupCmd gname mainSpk.name mainSpk.mac
              (subs.map (fun o => (o.ip_address, o.mac))))] ∧
      (create_group speakers gname names ns).2.calls = ns.calls + subs.length + 2) := by
  constructor
  · intro hlt
    unfold create_group
    by_cases hn : names.length < 2
    · rw [if_pos hn]
    · rw [if_neg hn]
      rcases hres : names.filterMap (get_speaker_by_name speakers) with _ | ⟨m, subs⟩
      · rfl
      · rw [hres] at hlt
        simp only [List.length_cons] at hlt
        have hsub : subs = [] := by
          cases subs with
          | nil => rfl
          | cons a b => simp at hlt; omega
        subst hsub
        rfl
  · intro mainSpk subs hres hne
    have hlen : ¬names.length < 2 := by
      intro hn
      have h1 : (names.filterMap (get_speaker_by_name speakers)).length ≤ names.length :=
        List.length_filterMap_le _ _
      rw [hres] at h1
      cases subs with
      | nil => exact hne rfl
      | cons a b => simp at h1; omega
    unfold create_group
    rw [if_neg hlen, hres]
    dsimp only
    have hemp : subs.isEmpty = false := by
      cases subs with
      | nil => exact absurd rfl hne
      | cons a b => rfl
    rw [hemp]
    simp only [Bool.false_eq_true, if_false]
    obtain ⟨_, hcalls, htrace, _⟩ := group_with_spec mainSpk gname subs ns
    rcases hg : group_with_speakers mainSpk gname subs ns with ⟨m1, subs1, resp, ns1⟩
    rw [hg] at hcalls htrace
    exact ⟨htrace, hcalls⟩

set_option maxRecDepth 4000 in
/-- Witness for C4: a single name fails with no network call; two resolved
names yield the participant ungroups plus exactly one group command. -/
theorem c4_create_group_witness :
    create_group [{ ip_address := "10.0.0.7", name := "New" }] "Zone1" ["New"]
      { oracle := fun _ => .requestError } =
      (none, { oracle := fun _ => .requestError }) ∧
    (create_group [{ ip_address := "10.0.0.7", name := "New" },
        { ip_address := "10.0.0.8", name := "B" }] "Zone1" ["New", "B"]
      { oracle := fun _ => .requestError }).2.trace =
      [("10.0.0.7", cmdUngroup), ("10.0.0.8", cmdUngroup),
       ("10.0.0.7", groupCmd "Zone1" "New" "" [("10.0.0.8", "")])] := by
  constructor
  · exact (c4_create_group [{ ip_address := "10.0.0.7", name := "New" }] "Zone1" ["New"]
      { oracle := fun _ => .requestError }).1 (by decide)
  · have h := (c4_create_group [{ ip_address := "10.0.0.7", name := "New" },
        { ip_address := "10.0.0.8", name := "B" }] "Zone1" ["New", "B"]
      { oracle := fun _ => .requestError }).2
      { ip_address := "10.0.0.7", name := "New" } [{ ip_address := "10.0.0.8", name := "B" }]
      (by decide) (by decide)
    rw [h.1]
    decide

/-- Claim C9: when `group_with_speakers` is called, the caller's cached
fields other than the group name are unchanged by the whole operation; a
truthy group-command result sets the caller's group name to the requested
name; and every sub-speaker keeps all its fields except that its group
name is at most cleared by the preliminary ungroup — never set to the new
group name by this call. -/
theorem c9_group_frame (s : Speaker) (g : String) (others : List Speaker) (ns : NetState) :
    (group_with_speakers s g others ns).1.ip_address = s.ip_address ∧
    (group_with_speakers s g others ns).1.name = s.name ∧
    (group_with_speakers s g others ns).1.led = s.led ∧
    (group_with_speakers s g others ns).1.mute = s.mute ∧
    (group_with_speakers s g others ns).1.volume = s.volume ∧
    (group_with_speakers s g others ns).1.repeat_mode = s.repeat_mode ∧
    (group_with_speakers s g others ns).1.mac = s.mac ∧
    (group_with_speakers s g others ns).1.port = s.port ∧
    (respTruthy (group_with_speakers s g others ns).2.2.1 = true →
      (group_with_speakers s g others ns).1.group_name = g) ∧
    List.Forall₂ (fun o o1 => o1.ip_address = o.ip_address ∧ o1.name = o.name ∧
        o1.led = o.led ∧ o1.mute = o.mute ∧ o1.volume = o.volume ∧
        o1.repeat_mode = o.repeat_mode ∧ o1.mac = o.mac ∧ o1.port = o.port ∧
        (o1.group_name = o.group_name ∨ o1.group_name = ""))
      others (group_with_speakers s g others ns).2.1 := by
  obtain ⟨_, _, _, h4, h5, h6, h7, h8, h9, h10, h11, h12, _, hrel, _⟩ :=
    group_with_spec s g others ns
  exact ⟨h4, h5, h6, h7, h8, h9, h10, h11, h12, hrel⟩

/-- Witness for C9: with a truthy group response, the caller's group name
becomes the requested one while its volume is untouched, and the sub's
group name is not set to the new name. -/
theorem c9_group_frame_witness :
    (group_with_speakers { ip_address := "10.0.0.7", name := "New", volume := 7 } "Zone1"
      [{ ip_address := "10.0.0.8", name := "B", group_name := "Zed" }]
      { oracle := fun _ => .httpResponse 200 "" (some (.jobj [("ok", .jint 1)])) }).1.group_name =
      "Zone1" ∧
    (group_with_speakers { ip_address := "10.0.0.7", name := "New", volume := 7 } "Zone1"
      [{ ip_address := "10.0.0.8", name := "B", group_name := "Zed" }]
      { oracle := fun _ => .httpResponse 200 "" (some (.jobj [("ok", .jint 1)])) }).1.volume = 7 := by
  have h := c9_group_frame { ip_address := "10.0.0.7", name := "New", volume := 7 } "Zone1"
    [{ ip_address := "10.0.0.8", name := "B", group_name := "Zed" }]
    { oracle := fun _ => .httpResponse 200 "" (some (.jobj [("ok", .jint 1)])) }
  exact ⟨h.2.2.2.2.2.2.2.2.1 (by decide), h.2.2.2.2.1⟩

theorem set_volume_keeps_group (s : Speaker) (v : Int) (ns : NetState) :
    (set_volume s v ns).1.group_name = s.group_name := by
  unfold set_volume callCmd
  dsimp only
  split <;> rfl

theorem get_volume_keeps_group (s : Speaker) (ns : NetState) :
    (get_volume s ns).1.group_name = s.group_name := by
  unfold get_volume callCmd
  dsimp only
  repeat' split
  all_goals rfl

theorem set_mute_keeps_group (s : Speaker) (c : String) (ns : NetState) :
    (set_mute s c ns).1.group_name = s.group_name := by
  unfold set_mute callCmd
  dsimp only
  split <;> first | rfl | (split <;> rfl)

theorem get_mute_keeps_group (s : Speaker) (ns : NetState) :
    (get_mute s ns).1.group_name = s.group_name := by
  unfold get_mute callCmd
  dsimp only
  split <;> rfl

theorem set_led_keeps_group (s : Speaker) (c : String) (ns : NetState) :
    (set_led s c ns).1.group_name = s.group_name := by
  unfold set_led callCmd
  dsimp only
  split <;> first | rfl | (split <;> rfl)

theorem set_repeat_mode_keeps_group (s : Speaker) (m : String) (ns : NetState) :
    (set_repeat_mode s m ns).1.group_name = s.group_name := by
  unfold set_repeat_mode callCmd
  dsimp only
  split <;> first | rfl | (split <;> rfl)

theorem set_name_keeps_group (s : Speaker) (n : String) (ns : NetState) :
    (set_name s n ns).1.group_name = s.group_name := by
  unfold set_name callCmd
  dsimp only
  split <;> rfl

theorem set_shuffle_keeps_group (s : Speaker) (b : Bool) (ns : NetState) :
    (set_shuffle s b ns).1.group_name = s.group_name := rfl

theorem fireAndForget_keeps_group (s : Speaker) (cmd : String) (ns : NetState) :
    (fireAndForget s cmd ns).1.group_name = s.group_name := rfl

/-- Amended claim C8: the cached group name is changed only by `ungroup`
(which only ever clears it), by `group_with_speakers` as main (to the new
name on a truthy result, possibly only cleared by its internal ungroup
when the group command fails), by being a participant of someone's
`group_with_speakers` call (at most cleared, never set to the new name),
or by `refresh`, which pulls whatever group name the device reports; no
other entity operation touches it. -/
theorem c8_group_transitions :
    (∀ (op : EntityOp) (s : Speaker) (ns : NetState),
      (stepOp op s ns).1.group_name ≠ s.group_name →
      (op = .ungroupOp ∨ op = .refreshOp ∨ ∃ g o, op = .groupWithOp g o)) ∧
    (∀ (s : Speaker) (ns : NetState),
      (stepOp .ungroupOp s ns).1.group_name = s.group_name ∨
      (stepOp .ungroupOp s ns).1.group_name = "") ∧
    (∀ (g : String) (o : List Speaker) (s : Speaker) (ns : NetState),
      (stepOp (.groupWithOp g o) s ns).1.group_name = g ∨
      (stepOp (.groupWithOp g o) s ns).1.group_name = "" ∨
      (stepOp (.groupWithOp g o) s ns).1.group_name = s.group_name) ∧
    (∀ (s : Speaker) (g : String) (others : List Speaker) (ns : NetState),
      List.Forall₂ (fun o o1 => o1.group_name = o.group_name ∨ o1.group_name = "")
        others (group_with_speakers s g others ns).2.1) := by
  refine ⟨?_, ?_, ?_, ?_⟩
  · intro op s ns hch
    cases op with
    | ungroupOp => exact Or.inl rfl
    | refreshOp => exact Or.inr (Or.inl rfl)
    | groupWithOp g o => exact Or.inr (Or.inr ⟨g, o, rfl⟩)
    | setVolumeOp v => exact absurd (set_volume_keeps_group s v ns) hch
    | getVolumeOp => exact absurd (get_volume_keeps_group s ns) hch
    | setMuteOp c => exact absurd (set_mute_keeps_group s c ns) hch
    | getMuteOp => exact absurd (get_mute_keeps_group s ns) hch
    | playOp => exact absurd (fireAndForget_keeps_group s (cmdPlaybackControl "play") ns) hch
    | pauseOp => exact absurd (fireAndForget_keeps_group s (cmdPlaybackControl "pause") ns) hch
    | resumeOp => exact absurd (fireAndForget_keeps_group s (cmdPlaybackControl "resume") ns) hch
    | nextTrackOp => exact absurd (fireAndForget_keeps_group s (cmdPlaybackControl "next") ns) hch
    | previousTrackOp => exact absurd (fireAndForget_keeps_group s (cmdPlaybackControl "previous") ns) hch
    | setRepeatModeOp m => exact absurd (set_repeat_mode_keeps_group s m ns) hch
    | setShuffleOp b => exact absurd (set_shuffle_keeps_group s b ns) hch
    | setLedOp c => exact absurd (set_led_keeps_group s c ns) hch
    | setNameOp n => exact absurd (set_name_keeps_group s n ns) hch
    | getApInfoOp => exact absurd (fireAndForget_keeps_group s "<name>GetApInfo</name>" ns) hch
    | getMusicInfoOp => exact absurd (fireAndForget_keeps_group s "<name>GetMusicInfo</name>" ns) hch
    | getCurrentPlayTimeOp => exact absurd (fireAndForget_keeps_group s "<name>GetCurrentPlayTime</name>" ns) hch
    | setSearchTimeOp t => exact absurd (fireAndForget_keeps_group s (cmdSetSearchTime t) ns) hch
    | getEqModeOp => exact absurd (fireAndForget_keeps_group s "<name>GetEQMode</name>" ns) hch
    | setEqModeOp m => exact absurd (fireAndForget_keeps_group s (cmdSetEqMode m) ns) hch
    | get7bandEqListOp => exact absurd (fireAndForget_keeps_group s "<name>Get7BandEQList</name>" ns) hch
    | set7bandEqPresetOp i => exact absurd (fireAndForget_keeps_group s (cmdSet7bandEqPreset i) ns) hch
    | set7bandEqValueOp i vals =>
      refine absurd ?_ hch
      simp only [stepOp]
      split
      · rfl
      · rfl
    | addCustomEqModeOp i n => exact absurd (fireAndForget_keeps_group s (cmdAddCustomEqMode i n) ns) hch
    | removeCustomEqModeOp i => exact absurd (fireAndForget_keeps_group s (cmdRemoveCustomEqMode i) ns) hch
    | playUrlOp u r => exact absurd (fireAndForget_keeps_group s (cmdPlayUrl u r) ns) hch
  · intro s ns
    simp only [stepOp]
    unfold ungroup callCmd
    dsimp only
    split
    · exact Or.inr rfl
    · exact Or.inl rfl
  · intro g o s ns
    simp only [stepOp]
    exact (group_with_spec s g o ns).2.2.2.2.2.2.2.2.2.2.2.2.1
  · intro s g others ns
    refine List.Forall₂.imp ?_ ((group_with_spec s g others ns).2.2.2.2.2.2.2.2.2.2.2.2.2.1)
    intro a b h
    obtain ⟨_, _, _, _, _, _, _, _, hg⟩ := h
    exact hg

/-- Witness for C8 amended: an `ungroup` with a truthy result changes a
grouped speaker's cached group name, and the change is classified to the
allowed operations. -/
theorem c8_group_transitions_witness :
    (stepOp .ungroupOp { ip_address := "10.0.0.1", group_name := "G" }
      { oracle := fun _ => .httpResponse 200 "" (some (.jobj [("ok", .jint 1)])) }).1.group_name ≠
      ({ ip_address := "10.0.0.1", group_name := "G" } : Speaker).group_name ∧
    (EntityOp.ungroupOp = .ungroupOp ∨ EntityOp.ungroupOp = .refreshOp ∨
      ∃ g o, EntityOp.ungroupOp = .groupWithOp g o) := by
  refine ⟨by decide, ?_⟩
  exact c8_group_transitions.1 .ungroupOp { ip_address := "10.0.0.1", group_name := "G" }
    { oracle := fun _ => .httpResponse 200 "" (some (.jobj [("ok", .jint 1)])) } (by decide)

/-- Counterexample to claim C8 as stated: a `refresh` whose group-name
fetch returns a device-reported group name moves the cached group name
from empty to non-empty, so `refresh` does change cached group-membership
state. -/
theorem c8_refresh_changes_group_counterexample :
    (stepOp .refreshOp { ip_address := "10.0.0.1" }
      { oracle := fun i => if i == 4 then
          .httpResponse 200 "" (some (.jobj [("UIC", .jobj [("response", .jobj
            [("groupname", .jobj [("#cdata-section", .jstr "Party")])])])]))
        else .requestError }).1.group_name = "Party" ∧
    ({ ip_address := "10.0.0.1" } : Speaker).group_name = "" := by
  exact ⟨by decide, rfl⟩

theorem volOut_some_shape (r : Option JVal) (hs : List (String × JVal))
    (h : uicNode r = some hs) :
    volOut r =
      (match lookupJ hs "volume" with
       | none => .keep
       | some v =>
         match pyIntJ v with
         | .ok n => .upd n
         | .error .valueError => .keep
         | .error e => .raise e) := by
  obtain ⟨hg, rr, hrr, hnode⟩ := uicNode_some r hs h
  subst hrr
  unfold volOut
  rw [hg]
  dsimp only
  rw [hnode]

theorem cdataOut_some_shape (key : String) (r : Option JVal) (hs : List (String × JVal))
    (h : uicNode r = some hs) :
    cdataOut key r =
      (match lookupJ hs key with
       | none => .keep
       | some (.jobj ks) =>
         (match lookupJ ks "#cdata-section" with
          | none => .keep
          | some (.jstr v) => .upd v
          | some _ => .raise .illTyped)
       | some _ => .raise .attributeError) := by
  obtain ⟨hg, rr, hrr, hnode⟩ := uicNode_some r hs h
  subst hrr
  unfold cdataOut
  rw [hg]
  dsimp only
  rw [hnode]
  dsimp only
  rw [pyGet_jobj]
  cases hlk : lookupJ hs key with
  | none => rfl
  | some v1 => cases v1 <;> rfl

theorem plainOut_some_shape (key : String) (r : Option JVal) (hs : List (String × JVal))
    (h : uicNode r = some hs) :
    plainOut key r =
      (match lookupJ hs key with
       | none => .keep
       | some (.jstr v) => .upd v
       | some _ => .raise .illTyped) := by
  obtain ⟨hg, rr, hrr, hnode⟩ := uicNode_some r hs h
  subst hrr
  unfold plainOut
  rw [hg]
  dsimp only
  rw [hnode]

/-- Amended claim C5: provided none of the six per-field responses is
malformed in a way that raises (a non-mapping where a mapping is expected,
or a non-`ValueError` conversion failure) — which in the code aborts the
remaining fields — `refresh` treats the six fields independently: each
field becomes exactly the value its own classified response dictates
(`keep` on no result, failed guard, missing field or `ValueError`-failing
integer parse; the fresh value on a successful fetch), all six commands
are sent, and in particular a missing or unparseable volume leaves the
cached volume while a parseable one replaces it verbatim. -/
theorem c5_refresh_field_independence
    (s : Speaker) (ns : NetState) (r1 r2 r3 r4 r5 r6 : Option JVal)
    (hr1 : send_command (ns.oracle ns.calls) = r1)
    (hr2 : send_command (ns.oracle (ns.calls + 1)) = r2)
    (hr3 : send_command (ns.oracle (ns.calls + 2)) = r3)
    (hr4 : send_command (ns.oracle (ns.calls + 3)) = r4)
    (hr5 : send_command (ns.oracle (ns.calls + 4)) = r5)
    (hr6 : send_command (ns.oracle (ns.calls + 5)) = r6)
    (h1 : (cdataOut "spkname" r1).isRaise = false)
    (h2 : (plainOut "led" r2).isRaise = false)
    (h3 : (plainOut "mute" r3).isRaise = false)
    (h4 : (volOut r4).isRaise = false)
    (h5 : (cdataOut "groupname" r5).isRaise = false)
    (h6 : (plainOut "repeat" r6).isRaise = false) :
    (refresh s ns).1.name = valOf (cdataOut "spkname" r1) s.name ∧
    (refresh s ns).1.led = valOf (plainOut "led" r2) s.led ∧
    (refresh s ns).1.mute = valOf (plainOut "mute" r3) s.mute ∧
    (refresh s ns).1.volume = valOf (volOut r4) s.volume ∧
    (refresh s ns).1.group_name = valOf (cdataOut "groupname" r5) s.group_name ∧
    (refresh s ns).1.repeat_mode = valOf (plainOut "repeat" r6) s.repeat_mode ∧
    (refresh s ns).1.ip_address = s.ip_address ∧
    (refresh s ns).2.calls = ns.calls + 6 ∧
    (r1 = none → (refresh s ns).1.name = s.name) ∧
    (r2 = none → (refresh s ns).1.led = s.led) ∧
    (r3 = none → (refresh s ns).1.mute = s.mute) ∧
    (r4 = none → (refresh s ns).1.volume = s.volume) ∧
    (r5 = none → (refresh s ns).1.group_name = s.group_name) ∧
    (r6 = none → (refresh s ns).1.repeat_mode = s.repeat_mode) ∧
    (∀ hs, uicNode r4 = some hs → lookupJ hs "volume" = none →
      (refresh s ns).1.volume = s.volume) ∧
    (∀ hs w, uicNode r4 = some hs → lookupJ hs "volume" = some (.jstr w) →
      pyIntOfString w = none → (refresh s ns).1.volume = s.volume) ∧
    (∀ hs n, uicNode r4 = some hs → lookupJ hs "volume" = some (.jint n) →
      (refresh s ns).1.volume = n) ∧
    (∀ hs w n, uicNode r4 = some hs → lookupJ hs "volume" = some (.jstr w) →
      pyIntOfString w = some n → (refresh s ns).1.volume = n) ∧
    (∀ hs, uicNode r1 = some hs → lookupJ hs "spkname" = none →
      (refresh s ns).1.name = s.name) ∧
    (∀ hs ks v, uicNode r1 = some hs → lookupJ hs "spkname" = some (.jobj ks) →
      lookupJ ks "#cdata-section" = some (.jstr v) → (refresh s ns).1.name = v) := by
  have hr2a : send_command (ns.oracle (ns.calls + 1)) = r2 := hr2
  have hr3a : send_command (ns.oracle (ns.calls + 1 + 1)) = r3 := by
    rw [show ns.calls + 1 + 1 = ns.calls + 2 from by omega]
    exact hr3
  have hr4a : send_command (ns.oracle (ns.calls + 1 + 1 + 1)) = r4 := by
    rw [show ns.calls + 1 + 1 + 1 = ns.calls + 3 from by omega]
    exact hr4
  have hr5a : send_command (ns.oracle (ns.calls + 1 + 1 + 1 + 1)) = r5 := by
    rw [show ns.calls + 1 + 1 + 1 + 1 = ns.calls + 4 from by omega]
    exact hr5
  have hr6a : send_command (ns.oracle (ns.calls + 1 + 1 + 1 + 1 + 1)) = r6 := by
    rw [show ns.calls + 1 + 1 + 1 + 1 + 1 = ns.calls + 5 from by omega]
    exact hr6
  have hmain : (refresh s ns).1.name = valOf (cdataOut "spkname" r1) s.name ∧
      (refresh s ns).1.led = valOf (plainOut "led" r2) s.led ∧
      (refresh s ns).1.mute = valOf (plainOut "mute" r3) s.mute ∧
      (refresh s ns).1.volume = valOf (volOut r4) s.volume ∧
      (refresh s ns).1.group_name = valOf (cdataOut "groupname" r5) s.group_name ∧
      (refresh s ns).1.repeat_mode = valOf (plainOut "repeat" r6) s.repeat_mode ∧
      (refresh s ns).1.ip_address = s.ip_address ∧
      (refresh s ns).2.calls = ns.calls + 6 := by
    unfold refresh callCmd
    dsimp only
    rw [hr1, cdataField_eq_out, outToExcept_eq_ok _ _ h1]
    dsimp only
    rw [hr2a, plainField_eq_out, outToExcept_eq_ok _ _ h2]
    dsimp only
    rw [hr3a, plainField_eq_out, outToExcept_eq_ok _ _ h3]
    dsimp only
    rw [hr4a, volumeField_eq_out, outToExcept_eq_ok _ _ h4]
    dsimp only
    rw [hr5a, cdataField_eq_out, outToExcept_eq_ok _ _ h5]
    dsimp only
    rw [hr6a, plainField_eq_out, outToExcept_eq_ok _ _ h6]
    dsimp only
    exact ⟨rfl, rfl, rfl, rfl, rfl, rfl, rfl, by omega⟩
  obtain ⟨e1, e2, e3, e4, e5, e6, eip, ecalls⟩ := hmain
  refine ⟨e1, e2, e3, e4, e5, e6, eip, ecalls, ?_, ?_, ?_, ?_, ?_, ?_, ?_, ?_, ?_, ?_, ?_, ?_⟩
  · intro h
    rw [e1, h]
    rfl
  · intro h
    rw [e2, h]
    rfl
  · intro h
    rw [e3, h]
    rfl
  · intro h
    rw [e4, h]
    rfl
  · intro h
    rw [e5, h]
    rfl
  · intro h
    rw [e6, h]
    rfl
  · intro hs huic hlk
    rw [e4, volOut_some_shape r4 hs huic, hlk]
    rfl
  · intro hs w huic hlk hp
    rw [e4, volOut_some_shape r4 hs huic, hlk]
    have hj : pyIntJ (.jstr w) = .error .valueError := by
      rw [pyIntJ, hp]
    dsimp only
    rw [hj]
    rfl
  · intro hs n huic hlk
    rw [e4, volOut_some_shape r4 hs huic, hlk]
    rfl
  · intro hs w n huic hlk hp
    rw [e4, volOut_some_shape r4 hs huic, hlk]
    have hj : pyIntJ (.jstr w) = .ok n := by
      rw [pyIntJ, hp]
    dsimp only
    rw [hj]
    rfl
  · intro hs huic hlk
    rw [e1, cdataOut_some_shape "spkname" r1 hs huic, hlk]
    rfl
  · intro hs ks v huic hlk hcd
    rw [e1, cdataOut_some_shape "spkname" r1 hs huic, hlk]
    dsimp only
    rw [hcd]
    rfl

/-- Witness for C5: with the mute and volume fetches succeeding and every
other fetch failing at transport level, exactly those two fields update
and the rest keep their cached values. -/
theorem c5_refresh_field_independence_witness :
    (refresh { ip_address := "10.0.0.1", name := "K", volume := 7 }
      { oracle := fun i =>
          if i == 2 then .httpResponse 200 "" (some (.jobj [("UIC", .jobj [("response",
            .jobj [("mute", .jstr "on")])])]))
          else if i == 3 then .httpResponse 200 "" (some (.jobj [("UIC", .jobj [("response",
            .jobj [("volume", .jstr "15")])])]))
          else .requestError }).1.mute = "on" ∧
    (refresh { ip_address := "10.0.0.1", name := "K", volume := 7 }
      { oracle := fun i =>
          if i == 2 then .httpResponse 200 "" (some (.jobj [("UIC", .jobj [("response",
            .jobj [("mute", .jstr "on")])])]))
          else if i == 3 then .httpResponse 200 "" (some (.jobj [("UIC", .jobj [("response",
            .jobj [("volume", .jstr "15")])])]))
          else .requestError }).1.volume = 15 ∧
    (refresh { ip_address := "10.0.0.1", name := "K", volume := 7 }
      { oracle := fun i =>
          if i == 2 then .httpResponse 200 "" (some (.jobj [("UIC", .jobj [("response",
            .jobj [("mute", .jstr "on")])])]))
          else if i == 3 then .httpResponse 200 "" (some (.jobj [("UIC", .jobj [("response",
            .jobj [("volume", .jstr "15")])])]))
          else .requestError }).1.name = "K" := by
  have h := c5_refresh_field_independence
    { ip_address := "10.0.0.1", name := "K", volume := 7 }
    { oracle := fun i =>
        if i == 2 then .httpResponse 200 "" (some (.jobj [("UIC", .jobj [("response",
          .jobj [("mute", .jstr "on")])])]))
        else if i == 3 then .httpResponse 200 "" (some (.jobj [("UIC", .jobj [("response",
          .jobj [("volume", .jstr "15")])])]))
        else .requestError }
    none none
    (some (.jobj [("UIC", .jobj [("response", .jobj [("mute", .jstr "on")])])]))
    (some (.jobj [("UIC", .jobj [("response", .jobj [("volume", .jstr "15")])])]))
    none none rfl rfl rfl rfl rfl rfl
    (by decide) (by decide) (by decide) (by decide) (by decide) (by decide)
  refine ⟨?_, ?_, ?_⟩
  · rw [h.2.2.1]
    rfl
  · rw [h.2.2.2.1]
    rfl
  · rw [h.1]
    rfl

/-- Network oracle in which the volume fetch (fourth call) returns a
mapping where an integer is expected and the group-name fetch (fifth
call) would succeed with the name `New`. -/
def refreshAbortNet : NetState :=
  { oracle := fun i =>
      if i == 3 then
        .httpResponse 200 "" (some (.jobj [("UIC", .jobj [("response",
          .jobj [("volume", .jobj [])])])]))
      else if i == 4 then
        .httpResponse 200 "" (some (.jobj [("UIC", .jobj [("response",
          .jobj [("groupname", .jobj [("#cdata-section", .jstr "New")])])])]))
      else .requestError }

/-- Counterexample to claim C5 as stated: a malformed volume response
makes `int()` raise a `TypeError`, which the inner `except ValueError`
does not catch, so the surrounding handler ends the refresh early — only
four of the six fetches are issued, and the group-name field keeps its old
value even though its response (already queued at the fifth call) would
have classified as an update to `New`. -/
theorem c5_refresh_abort_counterexample :
    cdataOut "groupname" (send_command (refreshAbortNet.oracle 4)) = .upd "New" ∧
    (refresh { ip_address := "10.0.0.1", group_name := "Old", volume := 7 }
      refreshAbortNet).1.group_name = "Old" ∧
    (refresh { ip_address := "10.0.0.1", group_name := "Old", volume := 7 }
      refreshAbortNet).2.calls = 4 := by
  exact ⟨by decide, by decide, by decide⟩

end Wam
